import Mathlib

/-!
# Solanum `modules/m_challenge.c`: the CHALLENGE command

A shallow embedding of the challenge-response operator authentication of
`m_challenge.c` and theorems about it.

* C strings are `List Char`; a `char *` that may be `NULL` is an `Option`.
* `time_t` values are `Int` (the only arithmetic is one subtraction of two clock
  readings, which cannot wrap a 64-bit `time_t`).
* Everything the handler does besides updating the client (replies, log lines,
  operator notices, calls of `find_oper_conf`, `oper_up` and of the two
  generators) is recorded, in program order, as a list of `Event`s.
* Functions and constants that live outside `m_challenge.c` (configuration,
  clock, credential store, `oper_up`, librb and OpenSSL primitives, the header
  constants `BUFSIZE`, `NICKLEN`, `HOSTLEN`) are fields of `Env`.
* A result `none` means the C function has no defined result on that input: it
  dereferences a `NULL` `localClient`, or the fragmenting loop does not
  terminate.
-/

namespace Solanum

/-- A NUL-terminated C string, without its terminator. -/
abbrev CStr := List Char

/-- The constant `CHALLENGE_EXPIRES` (line 53). -/
def CHALLENGE_EXPIRES : Int := 180

/-- The constant `CHALLENGE_SECRET_LENGTH` (line 54). -/
def CHALLENGE_SECRET_LENGTH : Nat := 128

/-- An OpenSSL `RSA *` public key, as uninterpreted key material. -/
structure RSA where
  material : List Nat
deriving DecidableEq

/-- An OpenSSL `EVP_PKEY *`, as uninterpreted key material. -/
structure EVP_PKEY where
  material : List Nat
deriving DecidableEq

/-- The digests `m_challenge.c` hands to `HMAC` (only `EVP_sha256()`). -/
inductive EVP_MD where
  | sha256
deriving DecidableEq

/-- The key type identifier `EVP_PKEY_X25519` (OpenSSL's `NID_X25519`). -/
def EVP_PKEY_X25519 : Nat := 1034

/-- The fields of `struct oper_conf` that `m_challenge.c` reads.
`NeedSSL` is the flag tested by `IsOperConfNeedSSL`. -/
structure oper_conf where
  name : CStr
  rsa_pubkey : Option RSA
  x25519_pubkey : Option EVP_PKEY
  NeedSSL : Bool
  certfp : Option CStr
deriving DecidableEq

/-- The numerics `m_challenge.c` sends. -/
inductive Numeric where
  | RPL_YOUREOPER
  | ERR_PASSWDMISMATCH
  | ERR_NOOPERHOST
  | RPL_RSACHALLENGE2
  | RPL_ENDOFRSACHALLENGE2
deriving DecidableEq

/-- The log files `m_challenge.c` writes to. -/
inductive LogFile where
  | L_MAIN
  | L_FOPER
  | L_OPERED
deriving DecidableEq

/-- One observable action of the handler.
* `sendto_one n args`: `sendto_one(source_p, form_str(n), args...)`;
* `sendto_one_numeric n`: `sendto_one_numeric(source_p, n, form_str(n))`;
* `sendto_realops_snomask fmt args`: the `SNO_GENERAL`, `L_NETWIDE` operator notice;
* `ilog file fmt who args`: a log line whose first `%s` is `who` (a pointer that
  may be `NULL`) and whose other arguments are `args`;
* `find_oper_conf`, `oper_up`, `generate_challenge_gen`, `generate_challenge`,
  `report_openssl_errors`: a call of that function with these arguments. -/
inductive Event where
  | sendto_one_notice (text : String)
  | sendto_one (numeric : Numeric) (args : List CStr)
  | sendto_one_numeric (numeric : Numeric)
  | sendto_realops_snomask (fmt : String) (args : List CStr)
  | ilog (file : LogFile) (fmt : String) (who : Option CStr) (args : List CStr)
  | send_oper_motd
  | find_oper_conf (username orighost sockhost : CStr) (name : Option CStr)
  | oper_up (oper_p : oper_conf)
  | generate_challenge_gen (token : CStr) (id : Nat) (md : EVP_MD) (pub : EVP_PKEY)
  | generate_challenge (rsa : Option RSA)
  | report_openssl_errors
deriving DecidableEq

/-- The fields of `struct LocalUser` used by the module: the stored expected
response (`challenge`) and its issue time (`chal_time`). -/
structure LocalClient where
  challenge : Option CStr
  chal_time : Int
deriving DecidableEq

/-- The field of `struct User` used by the module: the claimed operator name. -/
structure User where
  opername : Option CStr
deriving DecidableEq

/-- The fields of `struct Client` used by the module. `IsSecureClient` and
`IsOper` are the flag tests of those names. `localClient` may be `NULL`
(`cleanup_challenge` tests it); `user` is not, the handler being registered for
registered clients only (`challenge_msgtab`, lines 79-82). -/
structure Client where
  name : CStr
  username : CStr
  host : CStr
  orighost : CStr
  sockhost : CStr
  certfp : Option CStr
  IsSecureClient : Bool
  IsOper : Bool
  localClient : Option LocalClient
  user : User
deriving DecidableEq

/-- What `m_challenge.c` takes from the rest of the server: `ConfigFileEntry`,
`me.name`, header constants, the clock, the credential store, `oper_up`, and the
librb and OpenSSL primitives. An `Option` result is `none` when the C call
reports failure, a `Bool` result is `false` then.
`EVP_PKEY_derive_len` and `EVP_PKEY_get_raw_public_key_len` are the calls with a
`NULL` buffer that only ask for the length. -/
structure Env where
  oper_secure_only : Bool
  failed_oper_notice : Bool
  me_name : CStr
  BUFSIZE : Nat
  NICKLEN : Nat
  HOSTLEN : Nat
  rb_current_time : Int
  find_oper_conf : CStr → CStr → CStr → Option CStr → Option oper_conf
  oper_up : Client → oper_conf → Client
  rb_get_random : Nat → Option (List Nat)
  SHA1 : List Nat → List Nat
  rb_base64_encode : List Nat → CStr
  RSA_public_encrypt : RSA → List Nat → Option (List Nat)
  EVP_PKEY_CTX_new_id : Nat → Bool
  EVP_PKEY_keygen_init : Nat → Bool
  EVP_PKEY_keygen : Nat → Option EVP_PKEY
  EVP_PKEY_CTX_new : EVP_PKEY → Bool
  EVP_PKEY_derive_init : EVP_PKEY → Bool
  EVP_PKEY_derive_set_peer : EVP_PKEY → EVP_PKEY → Bool
  EVP_PKEY_derive_len : EVP_PKEY → EVP_PKEY → Option Nat
  EVP_PKEY_derive : EVP_PKEY → EVP_PKEY → Option (List Nat)
  EVP_PKEY_get_raw_public_key_len : EVP_PKEY → Option Nat
  EVP_PKEY_get_raw_public_key : EVP_PKEY → Option (List Nat)
  HMAC : EVP_MD → List Nat → CStr → Option (List Nat)

/-- The constant `CHALLENGE_WIDTH` (line 52): `BUFSIZE - (NICKLEN + HOSTLEN + 12)`.
It is the size of the array `chal_line`; a value below zero does not compile,
the truncated subtraction maps it to `0`, which the loop model refuses. -/
def CHALLENGE_WIDTH (env : Env) : Nat :=
  env.BUFSIZE - (env.NICKLEN + env.HOSTLEN + 12)

/-- The function `cleanup_challenge` (lines 91-102). -/
def cleanup_challenge (target_p : Client) : Client :=
  match target_p.localClient with
  | none => target_p
  | some lc =>
    { target_p with
      localClient := some { lc with challenge := none, chal_time := 0 }
      user := { target_p.user with opername := none } }

/-- What a generator leaves behind: its return value, the two out-parameters
`*r_challenge` and `*r_response`, and the calls it made. -/
structure GenResult where
  success : Bool
  r_challenge : Option CStr
  r_response : Option CStr
  events : List Event
deriving DecidableEq

/-- The function `generate_challenge_gen` (lines 310-359). `r_challenge` and
`r_response` are the values of the out-parameters on entry; every `goto done`
before `success = true` leaves them alone and calls `report_openssl_errors`.
`rb_malloc` does not return `NULL` (it aborts the process instead). -/
def generate_challenge_gen (env : Env) (token : CStr) (id : Nat) (md : EVP_MD)
    (pub : EVP_PKEY) (r_challenge r_response : Option CStr) : GenResult :=
  let done : GenResult :=
    { success := false, r_challenge := r_challenge, r_response := r_response,
      events := [Event.report_openssl_errors] }
  if env.EVP_PKEY_CTX_new_id id = false then done
  else if env.EVP_PKEY_keygen_init id = false then done
  else match env.EVP_PKEY_keygen id with
  | none => done
  | some pkey =>
    if env.EVP_PKEY_CTX_new pkey = false then done
    else if env.EVP_PKEY_derive_init pkey = false then done
    else if env.EVP_PKEY_derive_set_peer pkey pub = false then done
    else match env.EVP_PKEY_derive_len pkey pub with
    | none => done
    | some _ =>
      match env.EVP_PKEY_derive pkey pub with
      | none => done
      | some shared =>
        match env.EVP_PKEY_get_raw_public_key_len pkey with
        | none => done
        | some _ =>
          match env.EVP_PKEY_get_raw_public_key pkey with
          | none => done
          | some epub =>
            match env.HMAC md shared token with
            | none => done
            | some d =>
              { success := true
                r_challenge := some (env.rb_base64_encode epub)
                r_response := some (env.rb_base64_encode d)
                events := [] }

/-- The function `generate_challenge` (lines 361-399). -/
def generate_challenge (env : Env) (r_challenge r_response : Option CStr)
    (rsa : Option RSA) : GenResult :=
  match rsa with
  | none =>
    { success := false, r_challenge := r_challenge, r_response := r_response, events := [] }
  | some key =>
    match env.rb_get_random CHALLENGE_SECRET_LENGTH with
    | none =>
      { success := false, r_challenge := r_challenge, r_response := r_response,
        events := [Event.report_openssl_errors] }
    | some secret =>
      let md := env.SHA1 secret
      let response := env.rb_base64_encode md
      match env.RSA_public_encrypt key secret with
      | some tmp =>
        { success := true
          r_challenge := some (env.rb_base64_encode tmp)
          r_response := some response
          events := [] }
      | none =>
        { success := false, r_challenge := r_challenge, r_response := none,
          events := [Event.report_openssl_errors] }

/-- Modelled from the spec: `rb_strcasecmp` is librb code, not part of
`m_challenge.c`; the spec says fingerprints are "compared case-insensitively as
a hex string". The model is the C library `strcasecmp` on NUL-terminated
strings: the difference of the first pair of characters that differ after
ASCII lower-casing (the terminator counting as `0`), and `0` if there is none. -/
def rb_strcasecmp : CStr → CStr → Int
  | [], [] => 0
  | [], b :: _ => 0 - (b.toLower.toNat : Int)
  | a :: _, [] => (a.toLower.toNat : Int)
  | a :: s1, b :: s2 =>
    if a.toLower = b.toLower then rb_strcasecmp s1 s2
    else (a.toLower.toNat : Int) - (b.toLower.toNat : Int)

/-- Modelled from the spec: `rb_strlcpy` is librb code, not part of
`m_challenge.c`; the spec only says the challenge is split "into
protocol-line-sized chunks". The model is the BSD `strlcpy` contract for
`size > 0`: the destination receives the first `size - 1` characters of `src`
(all of it when shorter) and the return value is `strlen(src)`. -/
def rb_strlcpy (src : CStr) (size : Nat) : CStr × Nat :=
  (src.take (size - 1), src.length)

/-- The event of one challenge line carrying `chunk` (line 284). -/
def challenge_line (env : Env) (source_p : Client) (chunk : CStr) : Event :=
  Event.sendto_one Numeric.RPL_RSACHALLENGE2 [env.me_name, source_p.name, chunk]

/-- The fragmenting loop `for(;;)` of `m_challenge` (lines 281-290), with `W` for
`CHALLENGE_WIDTH` and `chal` for the rest of the challenge text. Each iteration
sends `chal_line` and continues `W - 1` characters further when
`cnt >= CHALLENGE_WIDTH`. `fuel` bounds the number of iterations; the result
is `none` when it is used up, and when `W = 0` (a zero-sized `chal_line`). -/
def challenge_lines (env : Env) (source_p : Client) (W : Nat) : Nat → CStr → Option (List Event)
  | 0, _ => none
  | fuel + 1, chal =>
    if W = 0 then none
    else
      let copied := rb_strlcpy chal W
      let line := challenge_line env source_p copied.1
      if copied.2 ≥ W then
        (challenge_lines env source_p W fuel (chal.drop (W - 1))).map (fun rest => line :: rest)
      else some [line]

/-- The operator notice sent only when `ConfigFileEntry.failed_oper_notice` is set. -/
def failed_oper_notice (env : Env) (source_p : Client) (fmt : String) : List Event :=
  if env.failed_oper_notice then
    [Event.sendto_realops_snomask fmt [source_p.name, source_p.username, source_p.host]]
  else []

/-- The condition of line 251, under `oper_p->certfp != NULL` (line 249):
the client has no fingerprint, or `rb_strcasecmp` finds a difference. -/
def certfp_mismatch (source_p : Client) (oper_p : oper_conf) : Bool :=
  match oper_p.certfp with
  | none => false
  | some fp =>
    match source_p.certfp with
    | none => true
    | some cfp => decide (rb_strcasecmp cfp fp ≠ 0)

/-- The initialiser of `challenge_generated` (lines 268-276): the X25519
generator when the credential has an X25519 key, else the RSA generator. The call
itself is recorded in front of the events of the generator. -/
def challenge_generated (env : Env) (oper_p : oper_conf)
    (challenge r_response : Option CStr) : GenResult :=
  match oper_p.x25519_pubkey with
  | some pub =>
    let token : CStr := "solanum-challenge v1-x25519-sha256".toList
    let g := generate_challenge_gen env token EVP_PKEY_X25519 EVP_MD.sha256 pub challenge r_response
    { g with events := Event.generate_challenge_gen token EVP_PKEY_X25519 EVP_MD.sha256 pub :: g.events }
  | none =>
    let g := generate_challenge env challenge r_response oper_p.rsa_pubkey
    { g with events := Event.generate_challenge oper_p.rsa_pubkey :: g.events }

/-- The response branch of `m_challenge` (lines 137-206), entered when
`*parv[1] == '+'`; `response` is `parv[1]` after `parv[1]++`. -/
def m_challenge_response (env : Env) (source_p : Client) (response : CStr) :
    Option (Client × List Event) :=
  match source_p.localClient with
  | none => none
  | some lc =>
    match lc.challenge with
    | none => some (source_p, [])
    | some challenge =>
      let who := [source_p.name, source_p.username, source_p.host, source_p.sockhost]
      if env.rb_current_time - lc.chal_time > CHALLENGE_EXPIRES then
        some (cleanup_challenge source_p,
          [Event.sendto_one Numeric.ERR_PASSWDMISMATCH [env.me_name, source_p.name],
           Event.ilog LogFile.L_FOPER "EXPIRED CHALLENGE (%s) by (%s!%s@%s) (%s)"
             source_p.user.opername who]
          ++ failed_oper_notice env source_p "Expired CHALLENGE attempt by %s (%s@%s)")
      else if challenge ≠ response then
        some (cleanup_challenge source_p,
          [Event.sendto_one Numeric.ERR_PASSWDMISMATCH [env.me_name, source_p.name],
           Event.ilog LogFile.L_FOPER "FAILED CHALLENGE (%s) by (%s!%s@%s) (%s)"
             source_p.user.opername who]
          ++ failed_oper_notice env source_p "Failed CHALLENGE attempt by %s (%s@%s)")
      else
        let lookup := Event.find_oper_conf source_p.username source_p.orighost
          source_p.sockhost source_p.user.opername
        match env.find_oper_conf source_p.username source_p.orighost source_p.sockhost
            source_p.user.opername with
        | none =>
          some (cleanup_challenge source_p,
            [lookup,
             Event.sendto_one_numeric Numeric.ERR_NOOPERHOST,
             Event.ilog LogFile.L_FOPER "FAILED OPER (%s) by (%s!%s@%s) (%s)"
               source_p.user.opername who]
            ++ failed_oper_notice env source_p
                 "Failed CHALLENGE attempt - host mismatch by %s (%s@%s)")
        | some oper_p =>
          let opered := env.oper_up (cleanup_challenge source_p) oper_p
          some (opered,
            [lookup,
             Event.oper_up oper_p,
             Event.ilog LogFile.L_OPERED "OPER %s by %s!%s@%s (%s)" opered.user.opername
               [opered.name, opered.username, opered.host, opered.sockhost]])

/-- The end of the issue branch of `m_challenge` (lines 268-298), reached with
the credential `oper_p` once the checks of lines 213-266 have passed: the
generator call, and on success the time stamp, the challenge lines, the end
marker and the claimed name. The local `challenge` starts as `NULL`. -/
def m_challenge_generate (env : Env) (source_p : Client) (oper_p : oper_conf) :
    Option (Client × List Event) :=
  match source_p.localClient with
  | none => none
  | some lc =>
    let g := challenge_generated env oper_p none lc.challenge
    if g.success = true then
      match g.r_challenge with
      | none => none
      | some challenge =>
        match challenge_lines env source_p (CHALLENGE_WIDTH env)
            (challenge.length + 1) challenge with
        | none => none
        | some lines =>
          some ({ source_p with
                  localClient :=
                    some { lc with challenge := g.r_response
                                   chal_time := env.rb_current_time }
                  user := { source_p.user with opername := some oper_p.name } },
            g.events ++ lines ++
              [Event.sendto_one Numeric.RPL_ENDOFRSACHALLENGE2 [env.me_name, source_p.name]])
    else
      some ({ source_p with localClient := some { lc with challenge := g.r_response } },
        g.events ++ [Event.sendto_one_notice ":Failed to generate challenge."])

/-- The issue branch of `m_challenge` (lines 208-298); `parv1` is `parv[1]`. -/
def m_challenge_issue (env : Env) (source_p : Client) (parv1 : CStr) :
    Option (Client × List Event) :=
  let source_p := cleanup_challenge source_p
  let who := [source_p.name, source_p.username, source_p.host, source_p.sockhost]
  let lookup := Event.find_oper_conf source_p.username source_p.orighost
    source_p.sockhost (some parv1)
  match env.find_oper_conf source_p.username source_p.orighost source_p.sockhost
      (some parv1) with
  | none =>
    some (source_p,
      [lookup,
       Event.sendto_one_numeric Numeric.ERR_NOOPERHOST,
       Event.ilog LogFile.L_FOPER "FAILED OPER (%s) by (%s!%s@%s) (%s)" (some parv1) who]
      ++ failed_oper_notice env source_p
           "Failed CHALLENGE attempt - host mismatch by %s (%s@%s)")
  | some oper_p =>
    if oper_p.rsa_pubkey = none ∧ oper_p.x25519_pubkey = none then
      some (source_p,
        [lookup,
         Event.sendto_one_notice
           ":I\x27m sorry, PK authentication is not enabled for your oper\x7b\x7d block."])
    else if oper_p.NeedSSL = true ∧ source_p.IsSecureClient = false then
      some (source_p,
        [lookup,
         Event.sendto_one_numeric Numeric.ERR_NOOPERHOST,
         Event.ilog LogFile.L_FOPER
           "FAILED CHALLENGE (%s) by (%s!%s@%s) (%s) -- requires SSL/TLS" (some parv1) who]
        ++ failed_oper_notice env source_p
             "Failed CHALLENGE attempt - missing SSL/TLS by %s (%s@%s)")
    else if certfp_mismatch source_p oper_p = true then
      some (source_p,
        [lookup,
         Event.sendto_one_numeric Numeric.ERR_NOOPERHOST,
         Event.ilog LogFile.L_FOPER
           "FAILED OPER (%s) by (%s!%s@%s) (%s) -- client certificate fingerprint mismatch"
           (some parv1) who]
        ++ failed_oper_notice env source_p
             "Failed OPER attempt - client certificate fingerprint mismatch by %s (%s@%s)")
    else
      (m_challenge_generate env source_p oper_p).map (fun r => (r.1, lookup :: r.2))

/-- The handler `m_challenge` (lines 108-298) for `source_p` and `parv[1]`:
the new client and what was done, or `none` where C gives no result. -/
def m_challenge (env : Env) (source_p : Client) (parv1 : CStr) :
    Option (Client × List Event) :=
  if env.oper_secure_only = true ∧ source_p.IsSecureClient = false then
    some (source_p,
      Event.sendto_one_notice
        ":You must be using a secure connection to /CHALLENGE on this server"
      :: failed_oper_notice env source_p
           "Failed CHALLENGE attempt - missing secure connection by %s (%s@%s)")
  else if source_p.IsOper = true then
    some (source_p,
      [Event.sendto_one Numeric.RPL_YOUREOPER [env.me_name, source_p.name],
       Event.send_oper_motd])
  else
    match parv1 with
    | '+' :: response => m_challenge_response env source_p response
    | _ => m_challenge_issue env source_p parv1

/-- The issue command `parv1` of client `c` gets past lines 213-266 and its
generator call succeeds: the lookup returns `oper_p`, which has a public key,
whose `NeedSSL` flag the connection satisfies and whose fingerprint, if any,
the client's matches; and the generator, entered with both out-parameters
`NULL`, returns true leaving the challenge text `text`, the expected response
`resp`, and having made the calls `gev`. -/
def IssuePasses (env : Env) (c : Client) (parv1 : CStr) (oper_p : oper_conf)
    (text resp : CStr) (gev : List Event) : Prop :=
  env.find_oper_conf c.username c.orighost c.sockhost (some parv1) = some oper_p ∧
  ¬ (oper_p.rsa_pubkey = none ∧ oper_p.x25519_pubkey = none) ∧
  ¬ (oper_p.NeedSSL = true ∧ c.IsSecureClient = false) ∧
  certfp_mismatch c oper_p = false ∧
  challenge_generated env oper_p none none =
    { success := true, r_challenge := some text, r_response := some resp, events := gev }

instance (env : Env) (c : Client) (parv1 : CStr) (oper_p : oper_conf) (text resp : CStr)
    (gev : List Event) : Decidable (IssuePasses env c parv1 oper_p text resp gev) := by
  unfold IssuePasses
  infer_instance

/-- Whether an event is something sent to the client `source_p` itself (a
numeric, a notice, the operator motd), as opposed to a log line, an operator
notice or a call. -/
def Event.toPeer : Event → Bool
  | Event.sendto_one_notice _ => true
  | Event.sendto_one _ _ => true
  | Event.sendto_one_numeric _ => true
  | Event.send_oper_motd => true
  | _ => false

/-- Whether an event is a call of one of the two generators. -/
def Event.isGeneratorCall : Event → Bool
  | Event.generate_challenge_gen _ _ _ _ => true
  | Event.generate_challenge _ => true
  | _ => false

/-- A sequence of CHALLENGE commands of one client, each handled by `m_challenge`
in the server state of its moment: the client after the last one, and all the
events in order. -/
def run_commands : List (Env × CStr) → Client → Option (Client × List Event)
  | [], c => some (c, [])
  | (env, parv1) :: rest, c =>
    match m_challenge env c parv1 with
    | none => none
    | some (c1, evs) =>
      match run_commands rest c1 with
      | none => none
      | some (c2, evs2) => some (c2, evs ++ evs2)

/-- The generator call that the initialiser of `challenge_generated` makes for
`oper_p` (lines 269-276). -/
def generator_call (oper_p : oper_conf) : Event :=
  match oper_p.x25519_pubkey with
  | some pub =>
    Event.generate_challenge_gen "solanum-challenge v1-x25519-sha256".toList EVP_PKEY_X25519
      EVP_MD.sha256 pub
  | none => Event.generate_challenge oper_p.rsa_pubkey

/-- The three fields of the pending record agree: the client is local, an
expected response is stored exactly when a claimed name is, and without a stored
response the issue time is 0. -/
def RecordConsistent (c : Client) : Prop :=
  ∃ lc, c.localClient = some lc ∧
    (lc.challenge.isSome = c.user.opername.isSome) ∧
    (lc.challenge = none → lc.chal_time = 0)

/-- The part of `RecordConsistent` that the handler relies on: the client is
local, a stored expected response comes with a claimed name, and without a stored
response the issue time is 0. -/
def RecordSafe (c : Client) : Prop :=
  ∃ lc, c.localClient = some lc ∧
    (lc.challenge.isSome = true → c.user.opername.isSome = true) ∧
    (lc.challenge = none → lc.chal_time = 0)

/-- The function `oper_up` of this server does not write `localClient` (the
stored response and its issue time); it may write anything else, the operator
flag and `user->opername` included. -/
def OperUpLocal (env : Env) : Prop :=
  ∀ (c : Client) (oper_p : oper_conf), (env.oper_up c oper_p).localClient = c.localClient

/-! ## A concrete server and client, used to instantiate the theorems -/

/-- An operator block `alice` with an RSA key, no transport or fingerprint
requirement. -/
def aliceConf : oper_conf :=
  { name := "alice".toList, rsa_pubkey := some { material := [3] }, x25519_pubkey := none,
    NeedSSL := false, certfp := none }

/-- A server whose store knows `alice` only, whose clock reads `1000`, and whose
primitives are small stand-ins (they are total and never fail). -/
def exampleEnv : Env :=
  { oper_secure_only := false
    failed_oper_notice := false
    me_name := "irc.example".toList
    BUFSIZE := 512
    NICKLEN := 32
    HOSTLEN := 63
    rb_current_time := 1000
    find_oper_conf := fun _ _ _ name =>
      if name = some "alice".toList then some aliceConf else none
    oper_up := fun c _ => { c with IsOper := true }
    rb_get_random := fun n => some (List.replicate n 7)
    SHA1 := fun s => [s.length, s.sum]
    rb_base64_encode := fun bytes => bytes.map (fun b => Char.ofNat (65 + b % 26))
    RSA_public_encrypt := fun key s => some (key.material ++ s.take 2)
    EVP_PKEY_CTX_new_id := fun _ => true
    EVP_PKEY_keygen_init := fun _ => true
    EVP_PKEY_keygen := fun _ => some { material := [5] }
    EVP_PKEY_CTX_new := fun _ => true
    EVP_PKEY_derive_init := fun _ => true
    EVP_PKEY_derive_set_peer := fun _ _ => true
    EVP_PKEY_derive_len := fun _ _ => some 32
    EVP_PKEY_derive := fun a b => some (a.material ++ b.material)
    EVP_PKEY_get_raw_public_key_len := fun _ => some 32
    EVP_PKEY_get_raw_public_key := fun a => some a.material
    HMAC := fun _ key msg => some (key ++ [msg.length]) }

/-- A local, registered, non-operator client on a plain connection with nothing
pending. -/
def exampleClient : Client :=
  { name := "al".toList, username := "u".toList, host := "h".toList, orighost := "h".toList,
    sockhost := "10.0.0.1".toList, certfp := none, IsSecureClient := false, IsOper := false,
    localClient := some { challenge := none, chal_time := 0 }
    user := { opername := none } }

/-- The client `exampleClient` with a challenge for `alice` pending since time
`1000`, the expected response being `QUJD`. -/
def pendingClient : Client :=
  { exampleClient with
    localClient := some { challenge := some "QUJD".toList, chal_time := 1000 }
    user := { opername := some "alice".toList } }

/-- An operator block `alice` as it may read after a rehash: no public key at
all, secure transport required, and a certificate fingerprint. -/
def strictConf : oper_conf :=
  { name := "alice".toList, rsa_pubkey := none, x25519_pubkey := none,
    NeedSSL := true, certfp := some "ab12".toList }

/-- The server `exampleEnv` whose store now answers every lookup with `strictConf`. -/
def strictEnv : Env :=
  { exampleEnv with find_oper_conf := fun _ _ _ _ => some strictConf }

/-- An operator block `alice` with an RSA key and an upper-case fingerprint. -/
def fpConf : oper_conf :=
  { aliceConf with certfp := some "AB12".toList }

/-- The server `exampleEnv` whose store resolves `alice` to `fpConf`. -/
def fpEnv : Env :=
  { exampleEnv with
    find_oper_conf := fun _ _ _ name =>
      if name = some "alice".toList then some fpConf else none }

/-- The client `exampleClient` presenting the same fingerprint in lower case. -/
def fpClient : Client :=
  { exampleClient with certfp := some "ab12".toList }

/-- The server `exampleEnv` with another random secret, hence another expected
response (`YK` instead of `YM`). -/
def secondEnv : Env :=
  { exampleEnv with rb_get_random := fun n => some (List.replicate n 8) }

/-- The client `exampleClient` after a successful issue for `alice` on
`exampleEnv`. -/
def issuedOnce : Client :=
  { exampleClient with
    localClient := some { challenge := some "YM".toList, chal_time := 1000 }
    user := { opername := some "alice".toList } }

/-- The client `issuedOnce` after a second successful issue, on `secondEnv`. -/
def issuedTwice : Client :=
  { exampleClient with
    localClient := some { challenge := some "YK".toList, chal_time := 1000 }
    user := { opername := some "alice".toList } }

/-- The server `exampleEnv` with a random source that fails. -/
def noRandomEnv : Env :=
  { exampleEnv with rb_get_random := fun _ => none }

/-- A stand-in for base64 that can be decoded: each number `n` becomes `n` times
`a` followed by one `b`. -/
def unaryEncode : List Nat → CStr
  | [] => []
  | n :: rest => List.replicate n 'a' ++ 'b' :: unaryEncode rest

/-- The decoder of `unaryEncode`, counting the `a`s seen since the last `b`. -/
def unaryDecodeFrom : Nat → CStr → List Nat
  | _, [] => []
  | n, ch :: rest =>
    if ch = 'b' then n :: unaryDecodeFrom 0 rest else unaryDecodeFrom (n + 1) rest

/-- The server `exampleEnv` with primitives that can be undone: `unaryEncode` for
base64, and an encryption that puts the key material in front of the plaintext. -/
def invertibleEnv : Env :=
  { exampleEnv with
    rb_base64_encode := unaryEncode
    RSA_public_encrypt := fun key s => some (key.material ++ s) }

/-- An operator block `bob` with an X25519 key only. -/
def bobConf : oper_conf :=
  { name := "bob".toList, rsa_pubkey := none, x25519_pubkey := some { material := [9] },
    NeedSSL := false, certfp := none }

/-- An operator block `carol` with both an RSA and an X25519 key. -/
def carolConf : oper_conf :=
  { name := "carol".toList, rsa_pubkey := some { material := [3] }
    x25519_pubkey := some { material := [9] }, NeedSSL := false, certfp := none }

/-- The server `exampleEnv` whose store knows `alice`, `bob` and `carol`. -/
def threeEnv : Env :=
  { exampleEnv with
    find_oper_conf := fun _ _ _ name =>
      if name = some "alice".toList then some aliceConf
      else if name = some "bob".toList then some bobConf
      else if name = some "carol".toList then some carolConf
      else none }

/-- The server `exampleEnv` with a small `BUFSIZE`, so that `CHALLENGE_WIDTH` is 3
and a challenge line carries 2 characters. -/
def narrowEnv : Env :=
  { exampleEnv with BUFSIZE := 110 }

/-- The server `exampleEnv` with `oper_secure_only` switched on. -/
def secureOnlyEnv : Env :=
  { exampleEnv with oper_secure_only := true }

/-- The server `exampleEnv` with an `oper_up` that marks the client as operator
and stores the name of the operator block in `user->opername`, the field the
`OPER` log line of line 202 reads after `oper_up`. -/
def namingEnv : Env :=
  { exampleEnv with
    oper_up := fun c oper_p =>
      { c with IsOper := true, user := { opername := some oper_p.name } } }

/-- The client `exampleClient` as `namingEnv` leaves it after a grant for `alice`. -/
def operAlice : Client :=
  { exampleClient with IsOper := true, user := { opername := some "alice".toList } }

end Solanum

/-! ## Theorems -/

namespace Solanum

/-! ### The paths of the handler, one lemma each -/

/-- The secure-connection gate (lines 117-127): a notice, and nothing else. -/
theorem m_challenge_insecure (env : Env) (c : Client) (parv1 : CStr)
    (hgate : env.oper_secure_only = true ∧ c.IsSecureClient = false) :
    m_challenge env c parv1 =
      some (c,
        Event.sendto_one_notice
          ":You must be using a secure connection to /CHALLENGE on this server"
        :: failed_oper_notice env c
             "Failed CHALLENGE attempt - missing secure connection by %s (%s@%s)") := by
  simp only [m_challenge, if_pos hgate]

/-- The operator gate (lines 129-135): `RPL_YOUREOPER` and the operator motd. -/
theorem m_challenge_already_oper (env : Env) (c : Client) (parv1 : CStr)
    (hgate : ¬ (env.oper_secure_only = true ∧ c.IsSecureClient = false))
    (hoper : c.IsOper = true) :
    m_challenge env c parv1 =
      some (c,
        [Event.sendto_one Numeric.RPL_YOUREOPER [env.me_name, c.name],
         Event.send_oper_motd]) := by
  simp only [m_challenge, if_neg hgate, if_pos hoper]

/-- Past the two gates a command starting with `+` runs the response branch. -/
theorem m_challenge_plus (env : Env) (c : Client) (response : CStr)
    (hgate : ¬ (env.oper_secure_only = true ∧ c.IsSecureClient = false))
    (hoper : c.IsOper = false) :
    m_challenge env c ('+' :: response) = m_challenge_response env c response := by
  simp only [m_challenge, if_neg hgate, hoper, Bool.false_eq_true, if_false]

/-- Past the two gates a command not starting with `+` runs the issue branch. -/
theorem m_challenge_name (env : Env) (c : Client) (parv1 : CStr)
    (hgate : ¬ (env.oper_secure_only = true ∧ c.IsSecureClient = false))
    (hoper : c.IsOper = false) (hname : parv1.head? ≠ some '+') :
    m_challenge env c parv1 = m_challenge_issue env c parv1 := by
  simp only [m_challenge, if_neg hgate, hoper, Bool.false_eq_true, if_false]
  cases parv1 with
  | nil => rfl
  | cons a rest =>
    have ha : a ≠ '+' := by simpa using hname
    split
    · rename_i heq
      simp only [List.cons.injEq] at heq
      exact absurd heq.1 ha
    · rfl

/-- On a local client `cleanup_challenge` resets the three fields and nothing else. -/
theorem cleanup_challenge_local (c : Client) (lc : LocalClient)
    (hlocal : c.localClient = some lc) :
    cleanup_challenge c =
      { c with localClient := some { challenge := none, chal_time := 0 }
               user := { opername := none } } := by
  simp [cleanup_challenge, hlocal]

/-- Running `cleanup_challenge` twice is the same as running it once. -/
theorem cleanup_challenge_idem (c : Client) :
    cleanup_challenge (cleanup_challenge c) = cleanup_challenge c := by
  cases hl : c.localClient with
  | none => simp [cleanup_challenge, hl]
  | some lc => simp [cleanup_challenge, hl]

/-- The connection attributes of a client are not touched by `cleanup_challenge`. -/
theorem cleanup_challenge_attrs (c : Client) :
    (cleanup_challenge c).name = c.name ∧ (cleanup_challenge c).username = c.username ∧
    (cleanup_challenge c).host = c.host ∧ (cleanup_challenge c).orighost = c.orighost ∧
    (cleanup_challenge c).sockhost = c.sockhost ∧ (cleanup_challenge c).certfp = c.certfp ∧
    (cleanup_challenge c).IsSecureClient = c.IsSecureClient ∧
    (cleanup_challenge c).IsOper = c.IsOper := by
  cases hl : c.localClient with
  | none => simp [cleanup_challenge, hl]
  | some lc => simp [cleanup_challenge, hl]

/-- The issue branch starts with `cleanup_challenge`, so it cannot tell a client
from its cleaned-up copy. -/
theorem m_challenge_issue_cleanup (env : Env) (c : Client) (parv1 : CStr) :
    m_challenge_issue env (cleanup_challenge c) parv1 = m_challenge_issue env c parv1 := by
  simp only [m_challenge_issue, cleanup_challenge_idem]

/-- The optional operator notice reads connection attributes only. -/
theorem failed_oper_notice_cleanup (env : Env) (c : Client) (fmt : String) :
    failed_oper_notice env (cleanup_challenge c) fmt = failed_oper_notice env c fmt := by
  obtain ⟨a1, a2, a3, -⟩ := cleanup_challenge_attrs c
  simp only [failed_oper_notice, a1, a2, a3]

/-- The fingerprint check reads connection attributes only. -/
theorem certfp_mismatch_cleanup (c : Client) (oper_p : oper_conf) :
    certfp_mismatch (cleanup_challenge c) oper_p = certfp_mismatch c oper_p := by
  obtain ⟨-, -, -, -, -, a6, -⟩ := cleanup_challenge_attrs c
  simp only [certfp_mismatch, a6]

/-- The optional operator notice is never a call of `oper_up`. -/
theorem oper_up_not_mem_notice (env : Env) (c : Client) (fmt : String) (o : oper_conf) :
    Event.oper_up o ∉ failed_oper_notice env c fmt := by
  unfold failed_oper_notice
  split <;> simp

/-- The response branch with nothing pending: no effect at all. -/
theorem response_not_expecting (env : Env) (c : Client) (lc : LocalClient) (response : CStr)
    (hlocal : c.localClient = some lc) (hnone : lc.challenge = none) :
    m_challenge_response env c response = some (c, []) := by
  simp only [m_challenge_response, hlocal, hnone]

/-- The response branch more than 180 seconds after the issue time (lines 143-157). -/
theorem response_expired (env : Env) (c : Client) (lc : LocalClient)
    (expected response : CStr)
    (hlocal : c.localClient = some lc) (hpending : lc.challenge = some expected)
    (hlate : env.rb_current_time - lc.chal_time > 180) :
    m_challenge_response env c response =
      some (cleanup_challenge c,
        [Event.sendto_one Numeric.ERR_PASSWDMISMATCH [env.me_name, c.name],
         Event.ilog LogFile.L_FOPER "EXPIRED CHALLENGE (%s) by (%s!%s@%s) (%s)"
           c.user.opername [c.name, c.username, c.host, c.sockhost]]
        ++ failed_oper_notice env c "Expired CHALLENGE attempt by %s (%s@%s)") := by
  simp only [m_challenge_response, hlocal, hpending, CHALLENGE_EXPIRES, if_pos hlate]

/-- The response branch in time with a text that is not the stored one (lines 159-175). -/
theorem response_mismatched (env : Env) (c : Client) (lc : LocalClient)
    (expected response : CStr)
    (hlocal : c.localClient = some lc) (hpending : lc.challenge = some expected)
    (hfresh : env.rb_current_time - lc.chal_time ≤ 180) (hne : response ≠ expected) :
    m_challenge_response env c response =
      some (cleanup_challenge c,
        [Event.sendto_one Numeric.ERR_PASSWDMISMATCH [env.me_name, c.name],
         Event.ilog LogFile.L_FOPER "FAILED CHALLENGE (%s) by (%s!%s@%s) (%s)"
           c.user.opername [c.name, c.username, c.host, c.sockhost]]
        ++ failed_oper_notice env c "Failed CHALLENGE attempt by %s (%s@%s)") := by
  have h1 : ¬ env.rb_current_time - lc.chal_time > 180 := by omega
  have h2 : expected ≠ response := fun h => hne h.symm
  simp only [m_challenge_response, hlocal, hpending, CHALLENGE_EXPIRES, if_neg h1, if_pos h2]

/-- The response branch in time with the stored text, the lookup finding nothing
(lines 177-196). -/
theorem response_revoked (env : Env) (c : Client) (lc : LocalClient) (expected : CStr)
    (hlocal : c.localClient = some lc) (hpending : lc.challenge = some expected)
    (hfresh : env.rb_current_time - lc.chal_time ≤ 180)
    (hfind : env.find_oper_conf c.username c.orighost c.sockhost c.user.opername = none) :
    m_challenge_response env c expected =
      some (cleanup_challenge c,
        [Event.find_oper_conf c.username c.orighost c.sockhost c.user.opername,
         Event.sendto_one_numeric Numeric.ERR_NOOPERHOST,
         Event.ilog LogFile.L_FOPER "FAILED OPER (%s) by (%s!%s@%s) (%s)"
           c.user.opername [c.name, c.username, c.host, c.sockhost]]
        ++ failed_oper_notice env c
             "Failed CHALLENGE attempt - host mismatch by %s (%s@%s)") := by
  have h1 : ¬ env.rb_current_time - lc.chal_time > 180 := by omega
  simp [m_challenge_response, hlocal, hpending, CHALLENGE_EXPIRES, h1, hfind]

/-- The response branch in time with the stored text, the lookup finding
`oper_p` (lines 177-205). -/
theorem response_granted (env : Env) (c : Client) (lc : LocalClient) (expected : CStr)
    (oper_p : oper_conf)
    (hlocal : c.localClient = some lc) (hpending : lc.challenge = some expected)
    (hfresh : env.rb_current_time - lc.chal_time ≤ 180)
    (hfind : env.find_oper_conf c.username c.orighost c.sockhost c.user.opername
      = some oper_p) :
    m_challenge_response env c expected =
      some (env.oper_up (cleanup_challenge c) oper_p,
        [Event.find_oper_conf c.username c.orighost c.sockhost c.user.opername,
         Event.oper_up oper_p,
         Event.ilog LogFile.L_OPERED "OPER %s by %s!%s@%s (%s)"
           (env.oper_up (cleanup_challenge c) oper_p).user.opername
           [(env.oper_up (cleanup_challenge c) oper_p).name,
            (env.oper_up (cleanup_challenge c) oper_p).username,
            (env.oper_up (cleanup_challenge c) oper_p).host,
            (env.oper_up (cleanup_challenge c) oper_p).sockhost]]) := by
  have h1 : ¬ env.rb_current_time - lc.chal_time > 180 := by omega
  simp [m_challenge_response, hlocal, hpending, CHALLENGE_EXPIRES, h1, hfind]

/-- The optional operator notice is never a call of `find_oper_conf`. -/
theorem find_oper_conf_not_mem_notice (env : Env) (c : Client) (fmt : String)
    (username orighost sockhost : CStr) (name : Option CStr) :
    Event.find_oper_conf username orighost sockhost name ∉ failed_oper_notice env c fmt := by
  unfold failed_oper_notice
  split <;> simp

/-- A `+response` command on a client with no stored response: the client is
unchanged, `oper_up` is not called, and past the gates nothing is done. -/
theorem second_response (env2 : Env) (c1 : Client) (response2 : CStr)
    (h1 : c1.localClient = some { challenge := none, chal_time := 0 }) :
    ∃ evs2, m_challenge env2 c1 ('+' :: response2) = some (c1, evs2) ∧
      (∀ o, Event.oper_up o ∉ evs2) ∧
      (¬ (env2.oper_secure_only = true ∧ c1.IsSecureClient = false) →
        c1.IsOper = false → evs2 = []) := by
  by_cases hg : env2.oper_secure_only = true ∧ c1.IsSecureClient = false
  · refine ⟨_, m_challenge_insecure env2 c1 _ hg, ?_, fun h => absurd hg h⟩
    intro o
    simp [oper_up_not_mem_notice]
  · by_cases ho : c1.IsOper = true
    · refine ⟨_, m_challenge_already_oper env2 c1 _ hg ho, ?_, ?_⟩
      · intro o; simp
      · intro _ h; rw [ho] at h; exact absurd h (by decide)
    · have ho2 : c1.IsOper = false := by simpa using ho
      refine ⟨[], ?_, by simp, fun _ _ => rfl⟩
      rw [m_challenge_plus env2 c1 response2 hg ho2]
      exact response_not_expecting env2 c1 _ response2 h1 rfl

/-- Strings that are equal after ASCII lower-casing compare equal under
`rb_strcasecmp`. -/
theorem rb_strcasecmp_of_lower_eq :
    ∀ (s1 s2 : CStr), s1.map Char.toLower = s2.map Char.toLower → rb_strcasecmp s1 s2 = 0 := by
  intro s1
  induction s1 with
  | nil =>
    intro s2 h
    cases s2 with
    | nil => rfl
    | cons b t => simp at h
  | cons a t ih =>
    intro s2 h
    cases s2 with
    | nil => simp at h
    | cons b u =>
      simp only [List.map_cons, List.cons.injEq] at h
      simp only [rb_strcasecmp, if_pos h.1]
      exact ih u h.2

/-- The issue branch when the lookup returns nothing (lines 208-225). -/
theorem issue_no_conf (env : Env) (c : Client) (parv1 : CStr)
    (hfind : env.find_oper_conf c.username c.orighost c.sockhost (some parv1) = none) :
    m_challenge_issue env c parv1 =
      some (cleanup_challenge c,
        [Event.find_oper_conf c.username c.orighost c.sockhost (some parv1),
         Event.sendto_one_numeric Numeric.ERR_NOOPERHOST,
         Event.ilog LogFile.L_FOPER "FAILED OPER (%s) by (%s!%s@%s) (%s)" (some parv1)
           [c.name, c.username, c.host, c.sockhost]]
        ++ failed_oper_notice env c
             "Failed CHALLENGE attempt - host mismatch by %s (%s@%s)") := by
  obtain ⟨a1, a2, a3, a4, a5, -⟩ := cleanup_challenge_attrs c
  simp only [m_challenge_issue, a1, a2, a3, a4, a5, hfind, failed_oper_notice_cleanup]

/-- The issue branch when the credential has no public key (lines 227-231). -/
theorem issue_no_key (env : Env) (c : Client) (parv1 : CStr) (oper_p : oper_conf)
    (hfind : env.find_oper_conf c.username c.orighost c.sockhost (some parv1) = some oper_p)
    (hkey : oper_p.rsa_pubkey = none ∧ oper_p.x25519_pubkey = none) :
    m_challenge_issue env c parv1 =
      some (cleanup_challenge c,
        [Event.find_oper_conf c.username c.orighost c.sockhost (some parv1),
         Event.sendto_one_notice
           ":I\x27m sorry, PK authentication is not enabled for your oper\x7b\x7d block."]) := by
  obtain ⟨a1, a2, a3, a4, a5, -⟩ := cleanup_challenge_attrs c
  simp only [m_challenge_issue, a1, a2, a3, a4, a5, hfind, if_pos hkey]

/-- The issue branch when the credential needs a secure connection that the
client lacks (lines 233-247). -/
theorem issue_need_ssl (env : Env) (c : Client) (parv1 : CStr) (oper_p : oper_conf)
    (hfind : env.find_oper_conf c.username c.orighost c.sockhost (some parv1) = some oper_p)
    (hkey : ¬ (oper_p.rsa_pubkey = none ∧ oper_p.x25519_pubkey = none))
    (hssl : oper_p.NeedSSL = true ∧ c.IsSecureClient = false) :
    m_challenge_issue env c parv1 =
      some (cleanup_challenge c,
        [Event.find_oper_conf c.username c.orighost c.sockhost (some parv1),
         Event.sendto_one_numeric Numeric.ERR_NOOPERHOST,
         Event.ilog LogFile.L_FOPER
           "FAILED CHALLENGE (%s) by (%s!%s@%s) (%s) -- requires SSL/TLS" (some parv1)
           [c.name, c.username, c.host, c.sockhost]]
        ++ failed_oper_notice env c
             "Failed CHALLENGE attempt - missing SSL/TLS by %s (%s@%s)") := by
  obtain ⟨a1, a2, a3, a4, a5, -, a7, -⟩ := cleanup_challenge_attrs c
  simp only [m_challenge_issue, a1, a2, a3, a4, a5, a7, hfind, if_neg hkey, if_pos hssl,
    failed_oper_notice_cleanup]

/-- The issue branch when the fingerprint check fails (lines 249-266). -/
theorem issue_certfp (env : Env) (c : Client) (parv1 : CStr) (oper_p : oper_conf)
    (hfind : env.find_oper_conf c.username c.orighost c.sockhost (some parv1) = some oper_p)
    (hkey : ¬ (oper_p.rsa_pubkey = none ∧ oper_p.x25519_pubkey = none))
    (hssl : ¬ (oper_p.NeedSSL = true ∧ c.IsSecureClient = false))
    (hfp : certfp_mismatch c oper_p = true) :
    m_challenge_issue env c parv1 =
      some (cleanup_challenge c,
        [Event.find_oper_conf c.username c.orighost c.sockhost (some parv1),
         Event.sendto_one_numeric Numeric.ERR_NOOPERHOST,
         Event.ilog LogFile.L_FOPER
           "FAILED OPER (%s) by (%s!%s@%s) (%s) -- client certificate fingerprint mismatch"
           (some parv1) [c.name, c.username, c.host, c.sockhost]]
        ++ failed_oper_notice env c
             "Failed OPER attempt - client certificate fingerprint mismatch by %s (%s@%s)") := by
  obtain ⟨a1, a2, a3, a4, a5, -, a7, -⟩ := cleanup_challenge_attrs c
  simp only [m_challenge_issue, a1, a2, a3, a4, a5, a7, hfind, if_neg hkey, if_neg hssl,
    certfp_mismatch_cleanup, if_pos hfp, failed_oper_notice_cleanup]

/-- The issue branch when the three checks pass: lines 268-298 run. -/
theorem issue_reaches_generator (env : Env) (c : Client) (parv1 : CStr) (oper_p : oper_conf)
    (hfind : env.find_oper_conf c.username c.orighost c.sockhost (some parv1) = some oper_p)
    (hkey : ¬ (oper_p.rsa_pubkey = none ∧ oper_p.x25519_pubkey = none))
    (hssl : ¬ (oper_p.NeedSSL = true ∧ c.IsSecureClient = false))
    (hfp : certfp_mismatch c oper_p = false) :
    m_challenge_issue env c parv1 =
      (m_challenge_generate env (cleanup_challenge c) oper_p).map
        (fun r => (r.1,
          Event.find_oper_conf c.username c.orighost c.sockhost (some parv1) :: r.2)) := by
  obtain ⟨a1, a2, a3, a4, a5, -, a7, -⟩ := cleanup_challenge_attrs c
  have hfp2 : ¬ certfp_mismatch c oper_p = true := by rw [hfp]; decide
  simp only [m_challenge_issue, a1, a2, a3, a4, a5, a7, hfind, if_neg hkey, if_neg hssl,
    certfp_mismatch_cleanup, if_neg hfp2]

/-- For a width of at least 2 and fuel above the length of the text, the
fragmenting loop returns; it sends one line per chunk, and the chunks put together
are the text. -/
theorem challenge_lines_flatten (env : Env) (c : Client) (W : Nat) (hW : 2 ≤ W) :
    ∀ (fuel : Nat) (chal : CStr), chal.length < fuel →
      ∃ chunks : List CStr,
        challenge_lines env c W fuel chal = some (chunks.map (challenge_line env c)) ∧
        chunks.flatten = chal := by
  intro fuel
  induction fuel with
  | zero => intro chal h; omega
  | succ n ih =>
    intro chal hlen
    have hW0 : W ≠ 0 := by omega
    simp only [challenge_lines, if_neg hW0, rb_strlcpy]
    by_cases hcnt : chal.length ≥ W
    · rw [if_pos hcnt]
      have hdrop : (chal.drop (W - 1)).length < n := by
        rw [List.length_drop]; omega
      obtain ⟨chunks, hrun, hflat⟩ := ih (chal.drop (W - 1)) hdrop
      refine ⟨chal.take (W - 1) :: chunks, ?_, ?_⟩
      · rw [hrun]; rfl
      · rw [List.flatten_cons, hflat, List.take_append_drop]
    · rw [if_neg hcnt]
      refine ⟨[chal], ?_, by simp⟩
      have : chal.take (W - 1) = chal := List.take_of_length_le (by omega)
      simp [challenge_line, this]

/-- The end of the issue branch when the generator succeeds with `text` and
`resp`: the record holds `resp`, the clock reading and the name of the credential;
the lines sent carry chunks that put together are `text`, and the end marker
follows. -/
theorem m_challenge_generate_success (env : Env) (c : Client) (lc : LocalClient)
    (oper_p : oper_conf) (text resp : CStr) (gev : List Event)
    (hlocal : c.localClient = some lc) (hnone : lc.challenge = none)
    (hW : 2 ≤ CHALLENGE_WIDTH env)
    (hgen : challenge_generated env oper_p none none =
      { success := true, r_challenge := some text, r_response := some resp, events := gev }) :
    ∃ chunks : List CStr, chunks.flatten = text ∧
      m_challenge_generate env c oper_p =
        some ({ c with
                localClient := some { challenge := some resp, chal_time := env.rb_current_time }
                user := { opername := some oper_p.name } },
          gev ++ chunks.map (challenge_line env c) ++
            [Event.sendto_one Numeric.RPL_ENDOFRSACHALLENGE2 [env.me_name, c.name]]) := by
  obtain ⟨chunks, hrun, hflat⟩ :=
    challenge_lines_flatten env c (CHALLENGE_WIDTH env) hW (text.length + 1) text (by omega)
  refine ⟨chunks, hflat, ?_⟩
  simp only [m_challenge_generate, hlocal, hnone, hgen, hrun, if_true]

/-- The issue branch when `IssuePasses` holds: lookup, generator calls, challenge
lines, end marker; the record is the new one. -/
theorem m_challenge_issue_success (env : Env) (c : Client) (lc : LocalClient)
    (parv1 : CStr) (oper_p : oper_conf) (text resp : CStr) (gev : List Event)
    (hlocal : c.localClient = some lc)
    (hW : 2 ≤ CHALLENGE_WIDTH env)
    (hpass : IssuePasses env c parv1 oper_p text resp gev) :
    ∃ chunks : List CStr, chunks.flatten = text ∧
      m_challenge_issue env c parv1 =
        some ({ c with
                localClient := some { challenge := some resp, chal_time := env.rb_current_time }
                user := { opername := some oper_p.name } },
          Event.find_oper_conf c.username c.orighost c.sockhost (some parv1) ::
            (gev ++ chunks.map (challenge_line env c) ++
              [Event.sendto_one Numeric.RPL_ENDOFRSACHALLENGE2 [env.me_name, c.name]])) := by
  obtain ⟨hfind, hkey, hssl, hfp, hgen⟩ := hpass
  have hclean := cleanup_challenge_local c lc hlocal
  obtain ⟨chunks, hflat, hrun⟩ :=
    m_challenge_generate_success env (cleanup_challenge c) { challenge := none, chal_time := 0 }
      oper_p text resp gev (by rw [hclean]) rfl hW hgen
  refine ⟨chunks, hflat, ?_⟩
  have hfp2 : certfp_mismatch (cleanup_challenge c) oper_p = false := by
    rw [hclean]; exact hfp
  have hfp3 : ¬ certfp_mismatch (cleanup_challenge c) oper_p = true := by
    rw [hfp2]; decide
  have hfind2 : env.find_oper_conf (cleanup_challenge c).username (cleanup_challenge c).orighost
      (cleanup_challenge c).sockhost (some parv1) = some oper_p := by
    rw [hclean]; exact hfind
  have hssl2 : ¬ (oper_p.NeedSSL = true ∧ (cleanup_challenge c).IsSecureClient = false) := by
    rw [hclean]; exact hssl
  simp only [m_challenge_issue, hfind2, if_neg hkey, if_neg hssl2, if_neg hfp3, hrun,
    Option.map_some']
  rw [hclean]
  rfl

/-- The two ways `generate_challenge_gen` ends: at `done` with `success` false,
out-parameters untouched and `report_openssl_errors` called, or with every
OpenSSL call successful and the two base64 strings stored. -/
theorem generate_challenge_gen_cases (env : Env) (token : CStr) (id : Nat) (md : EVP_MD)
    (pub : EVP_PKEY) (a b : Option CStr) :
    generate_challenge_gen env token id md pub a b =
        { success := false, r_challenge := a, r_response := b,
          events := [Event.report_openssl_errors] } ∨
    ∃ pkey shared epub d,
      env.EVP_PKEY_CTX_new_id id = true ∧ env.EVP_PKEY_keygen_init id = true ∧
      env.EVP_PKEY_keygen id = some pkey ∧ env.EVP_PKEY_CTX_new pkey = true ∧
      env.EVP_PKEY_derive_init pkey = true ∧ env.EVP_PKEY_derive_set_peer pkey pub = true ∧
      (env.EVP_PKEY_derive_len pkey pub).isSome = true ∧
      env.EVP_PKEY_derive pkey pub = some shared ∧
      (env.EVP_PKEY_get_raw_public_key_len pkey).isSome = true ∧
      env.EVP_PKEY_get_raw_public_key pkey = some epub ∧
      env.HMAC md shared token = some d ∧
      generate_challenge_gen env token id md pub a b =
        { success := true, r_challenge := some (env.rb_base64_encode epub),
          r_response := some (env.rb_base64_encode d), events := [] } := by
  unfold generate_challenge_gen
  by_cases h1 : env.EVP_PKEY_CTX_new_id id = false
  · left; simp [h1]
  by_cases h2 : env.EVP_PKEY_keygen_init id = false
  · left; simp [h1, h2]
  cases h3 : env.EVP_PKEY_keygen id with
  | none => left; simp [h1, h2]
  | some pkey =>
    by_cases h4 : env.EVP_PKEY_CTX_new pkey = false
    · left; simp [h1, h2, h4]
    by_cases h5 : env.EVP_PKEY_derive_init pkey = false
    · left; simp [h1, h2, h4, h5]
    by_cases h6 : env.EVP_PKEY_derive_set_peer pkey pub = false
    · left; simp [h1, h2, h4, h5, h6]
    cases h7 : env.EVP_PKEY_derive_len pkey pub with
    | none => left; simp [h1, h2, h4, h5, h6, h7]
    | some n =>
      cases h8 : env.EVP_PKEY_derive pkey pub with
      | none => left; simp [h1, h2, h4, h5, h6, h7, h8]
      | some shared =>
        cases h9 : env.EVP_PKEY_get_raw_public_key_len pkey with
        | none => left; simp [h1, h2, h4, h5, h6, h7, h8, h9]
        | some m =>
          cases h10 : env.EVP_PKEY_get_raw_public_key pkey with
          | none => left; simp [h1, h2, h4, h5, h6, h7, h8, h9, h10]
          | some epub =>
            cases h11 : env.HMAC md shared token with
            | none => left; simp [h1, h2, h4, h5, h6, h7, h8, h9, h10, h11]
            | some d =>
              right
              refine ⟨pkey, shared, epub, d, by simpa using h1, by simpa using h2, rfl,
                by simpa using h4, by simpa using h5, by simpa using h6, ?_, ?_, ?_, ?_, ?_, ?_⟩
              · simp [h7]
              · exact h8
              · simp [h9]
              · exact h10
              · exact h11
              · simp [h1, h2, h4, h5, h6, h7, h8, h9, h10, h11]

/-- The ways `generate_challenge` ends: without a key, with the random source
failing, with the encryption failing (the response already stored is taken
back), or with secret, digest and ciphertext all there. -/
theorem generate_challenge_cases (env : Env) (a b : Option CStr) (rsa : Option RSA) :
    (rsa = none ∧ generate_challenge env a b rsa =
        { success := false, r_challenge := a, r_response := b, events := [] }) ∨
    (∃ key, rsa = some key ∧ env.rb_get_random CHALLENGE_SECRET_LENGTH = none ∧
      generate_challenge env a b rsa =
        { success := false, r_challenge := a, r_response := b,
          events := [Event.report_openssl_errors] }) ∨
    (∃ key secret, rsa = some key ∧
      env.rb_get_random CHALLENGE_SECRET_LENGTH = some secret ∧
      env.RSA_public_encrypt key secret = none ∧
      generate_challenge env a b rsa =
        { success := false, r_challenge := a, r_response := none,
          events := [Event.report_openssl_errors] }) ∨
    (∃ key secret tmp, rsa = some key ∧
      env.rb_get_random CHALLENGE_SECRET_LENGTH = some secret ∧
      env.RSA_public_encrypt key secret = some tmp ∧
      generate_challenge env a b rsa =
        { success := true, r_challenge := some (env.rb_base64_encode tmp),
          r_response := some (env.rb_base64_encode (env.SHA1 secret)), events := [] }) := by
  cases rsa with
  | none => left; exact ⟨rfl, rfl⟩
  | some key =>
    right
    cases hr : env.rb_get_random CHALLENGE_SECRET_LENGTH with
    | none => left; exact ⟨key, rfl, rfl, by simp [generate_challenge, hr]⟩
    | some secret =>
      right
      cases he : env.RSA_public_encrypt key secret with
      | none => left; exact ⟨key, secret, rfl, rfl, he, by simp [generate_challenge, hr, he]⟩
      | some tmp =>
        right; exact ⟨key, secret, tmp, rfl, rfl, he, by simp [generate_challenge, hr, he]⟩

/-- What the generator call of `m_challenge` leaves when entered with both
out-parameters `NULL`: the call itself, then at most `report_openssl_errors`;
on failure both out-parameters are still `NULL`, on success both are set. -/
theorem challenge_generated_cases (env : Env) (oper_p : oper_conf) :
    (∃ rest, (challenge_generated env oper_p none none).events = generator_call oper_p :: rest ∧
      (rest = [] ∨ rest = [Event.report_openssl_errors])) ∧
    ((challenge_generated env oper_p none none).success = false →
      (challenge_generated env oper_p none none).r_challenge = none ∧
      (challenge_generated env oper_p none none).r_response = none) ∧
    ((challenge_generated env oper_p none none).success = true →
      ∃ text resp,
        (challenge_generated env oper_p none none).r_challenge = some text ∧
        (challenge_generated env oper_p none none).r_response = some resp) := by
  cases hx : oper_p.x25519_pubkey with
  | some pub =>
    rcases generate_challenge_gen_cases env "solanum-challenge v1-x25519-sha256".toList
      EVP_PKEY_X25519 EVP_MD.sha256 pub none none with h | ⟨pkey, shared, epub, d, -, -, -, -, -,
        -, -, -, -, -, -, h⟩
    · simp only [challenge_generated, generator_call, hx]
      rw [h]
      simp
    · simp only [challenge_generated, generator_call, hx]
      rw [h]
      simp
  | none =>
    rcases generate_challenge_cases env none none oper_p.rsa_pubkey with
      ⟨-, h⟩ | ⟨key, -, -, h⟩ | ⟨key, secret, -, -, -, h⟩ | ⟨key, secret, tmp, -, -, -, h⟩
    · simp [challenge_generated, generator_call, hx, h]
    · simp [challenge_generated, generator_call, hx, h]
    · simp [challenge_generated, generator_call, hx, h]
    · simp [challenge_generated, generator_call, hx, h]

/-- The issue branch when the three checks pass and the generator fails (lines
268-277 and 296-297): the failure notice, and the client as `cleanup_challenge`
left it. -/
theorem issue_generator_failure (env : Env) (c : Client) (lc : LocalClient) (parv1 : CStr)
    (oper_p : oper_conf)
    (hlocal : c.localClient = some lc)
    (hfind : env.find_oper_conf c.username c.orighost c.sockhost (some parv1) = some oper_p)
    (hkey : ¬ (oper_p.rsa_pubkey = none ∧ oper_p.x25519_pubkey = none))
    (hssl : ¬ (oper_p.NeedSSL = true ∧ c.IsSecureClient = false))
    (hfp : certfp_mismatch c oper_p = false)
    (hgen : (challenge_generated env oper_p none none).success = false) :
    m_challenge_issue env c parv1 =
      some (cleanup_challenge c,
        Event.find_oper_conf c.username c.orighost c.sockhost (some parv1) ::
          ((challenge_generated env oper_p none none).events ++
            [Event.sendto_one_notice ":Failed to generate challenge."])) := by
  have hclean := cleanup_challenge_local c lc hlocal
  have hresp := ((challenge_generated_cases env oper_p).2.1 hgen).2
  rw [issue_reaches_generator env c parv1 oper_p hfind hkey hssl hfp, hclean]
  simp [m_challenge_generate, hgen, hresp]

/-- The generator call is a call, not something sent to the client. -/
theorem generator_call_kind (oper_p : oper_conf) :
    (generator_call oper_p).toPeer = false ∧ (generator_call oper_p).isGeneratorCall = true := by
  unfold generator_call
  split <;> exact ⟨rfl, rfl⟩

/-- Of the events of the generator call of `m_challenge`, none is sent to the
client and exactly the first is a generator call. -/
theorem challenge_generated_events (env : Env) (oper_p : oper_conf) :
    (challenge_generated env oper_p none none).events.filter Event.toPeer = [] ∧
    (challenge_generated env oper_p none none).events.filter Event.isGeneratorCall
      = [generator_call oper_p] := by
  obtain ⟨⟨rest, hev, hrest⟩, -⟩ := challenge_generated_cases env oper_p
  obtain ⟨h1, h2⟩ := generator_call_kind oper_p
  have h3 : Event.report_openssl_errors.toPeer = false := rfl
  have h4 : Event.report_openssl_errors.isGeneratorCall = false := rfl
  rw [hev]
  rcases hrest with h | h <;> subst h <;> simp [List.filter_cons, h1, h2, h3, h4]

/-- Decoding after `n` more `a`s and a `b` yields the count so far plus `n`. -/
theorem unaryDecodeFrom_replicate (n : Nat) :
    ∀ (k : Nat) (rest : CStr),
      unaryDecodeFrom k (List.replicate n 'a' ++ 'b' :: rest) = (k + n) :: unaryDecodeFrom 0 rest := by
  induction n with
  | zero => intro k rest; simp [unaryDecodeFrom]
  | succ m ih =>
    intro k rest
    have ha : ¬ ('a' = 'b') := by decide
    rw [List.replicate_succ, List.cons_append, unaryDecodeFrom, if_neg ha, ih]
    congr 1
    omega

/-- The decoder undoes `unaryEncode`. -/
theorem unaryDecodeFrom_encode (bytes : List Nat) :
    unaryDecodeFrom 0 (unaryEncode bytes) = bytes := by
  induction bytes with
  | nil => rfl
  | cons n rest ih => rw [unaryEncode, unaryDecodeFrom_replicate, ih, Nat.zero_add]

/-- The fragmenting loop for a width `W` of at least 2 and fuel above the length
of the text: it returns, sending one line per chunk; the chunks put together
are the text; each has at most `W - 1` characters and all but the last exactly
`W - 1`; there are `max 1 (ceil (n / (W - 1)))` of them, none empty unless the
text is. -/
theorem challenge_lines_chunks (env : Env) (c : Client) (W : Nat) (hW : 2 ≤ W) :
    ∀ (fuel : Nat) (chal : CStr), chal.length < fuel →
      ∃ chunks : List CStr,
        challenge_lines env c W fuel chal = some (chunks.map (challenge_line env c)) ∧
        chunks.flatten = chal ∧
        (∀ ch ∈ chunks, ch.length ≤ W - 1) ∧
        (∀ ch ∈ chunks.dropLast, ch.length = W - 1) ∧
        chunks.length = max 1 ((chal.length + (W - 2)) / (W - 1)) ∧
        (0 < chal.length → ∀ ch ∈ chunks, ch ≠ []) := by
  intro fuel
  induction fuel with
  | zero => intro chal h; omega
  | succ n ih =>
    intro chal hlen
    have hW0 : W ≠ 0 := by omega
    have hk : 0 < W - 1 := by omega
    simp only [challenge_lines, if_neg hW0, rb_strlcpy]
    by_cases hcnt : chal.length ≥ W
    · rw [if_pos hcnt]
      have hdroplen : (chal.drop (W - 1)).length = chal.length - (W - 1) := List.length_drop _ _
      have hdrop : (chal.drop (W - 1)).length < n := by omega
      obtain ⟨chunks, hrun, hflat, hle, hfull, hcount, hne⟩ := ih (chal.drop (W - 1)) hdrop
      have htake : (chal.take (W - 1)).length = W - 1 := by
        rw [List.length_take]; omega
      have hq : 1 ≤ ((chal.drop (W - 1)).length + (W - 2)) / (W - 1) := by
        apply Nat.div_pos _ hk
        omega
      have hchunks : chunks ≠ [] := by
        intro h
        rw [h] at hcount
        simp at hcount
        omega
      refine ⟨chal.take (W - 1) :: chunks, ?_, ?_, ?_, ?_, ?_, ?_⟩
      · rw [hrun]; rfl
      · rw [List.flatten_cons, hflat, List.take_append_drop]
      · intro ch hch
        rcases List.mem_cons.mp hch with h | h
        · rw [h, htake]
        · exact hle ch h
      · intro ch hch
        rw [List.dropLast_cons_of_ne_nil hchunks] at hch
        rcases List.mem_cons.mp hch with h | h
        · rw [h, htake]
        · exact hfull ch h
      · have hsplit : chal.length + (W - 2) = ((chal.drop (W - 1)).length + (W - 2)) + (W - 1) := by
          omega
        rw [List.length_cons, hcount, hsplit, Nat.add_div_right _ hk]
        omega
      · intro _ ch hch
        rcases List.mem_cons.mp hch with h | h
        · intro hnil
          rw [← h, hnil] at htake
          simp at htake
          omega
        · exact hne (by omega) ch h
    · rw [if_neg hcnt]
      have htake : chal.take (W - 1) = chal := List.take_of_length_le (by omega)
      refine ⟨[chal], ?_, by simp, ?_, by simp, ?_, ?_⟩
      · simp [htake]
      · intro ch hch
        rw [List.mem_singleton.mp hch]
        omega
      · have hlt : (chal.length + (W - 2)) / (W - 1) < 2 := by
          rw [Nat.div_lt_iff_lt_mul hk]
          omega
        rw [List.length_singleton]
        omega
      · intro hpos ch hch
        rw [List.mem_singleton.mp hch]
        intro hnil
        rw [hnil] at hpos
        simp at hpos

/-- The optional operator notice is not sent to the client. -/
theorem failed_oper_notice_toPeer (env : Env) (c : Client) (fmt : String) :
    (failed_oper_notice env c fmt).filter Event.toPeer = [] := by
  unfold failed_oper_notice
  split <;> simp [Event.toPeer]

/-- The generator call of `m_challenge` never involves `oper_up`. -/
theorem oper_up_not_mem_generated (env : Env) (oper_p o : oper_conf) :
    Event.oper_up o ∉ (challenge_generated env oper_p none none).events := by
  obtain ⟨⟨rest, hev, hrest⟩, -⟩ := challenge_generated_cases env oper_p
  have hcall : Event.oper_up o ≠ generator_call oper_p := by
    unfold generator_call
    split <;> simp
  rw [hev]
  rcases hrest with h | h <;> subst h <;> simp [hcall]

/-- Whatever the fragmenting loop sends is a challenge line. -/
theorem challenge_lines_events (env : Env) (c : Client) (W : Nat) :
    ∀ (fuel : Nat) (chal : CStr) (lines : List Event),
      challenge_lines env c W fuel chal = some lines →
      ∀ e ∈ lines, ∃ chunk, e = challenge_line env c chunk := by
  intro fuel
  induction fuel with
  | zero => intro chal lines h; simp [challenge_lines] at h
  | succ n ih =>
    intro chal lines h e he
    simp only [challenge_lines] at h
    split at h
    · cases h
    · split at h
      · cases hrest : challenge_lines env c W n (chal.drop (W - 1)) with
        | none => rw [hrest] at h; cases h
        | some rest =>
          rw [hrest] at h
          simp only [Option.map_some', Option.some.injEq] at h
          rw [← h] at he
          rcases List.mem_cons.mp he with h1 | h1
          · exact ⟨_, h1⟩
          · exact ih _ rest hrest e h1
      · simp only [Option.some.injEq] at h
        rw [← h] at he
        exact ⟨_, List.mem_singleton.mp he⟩

/-- A client that `cleanup_challenge` has gone over has a consistent record. -/
theorem recordConsistent_cleanup (c : Client) (lc : LocalClient)
    (hlocal : c.localClient = some lc) : RecordConsistent (cleanup_challenge c) := by
  rw [cleanup_challenge_local c lc hlocal]
  exact ⟨_, rfl, rfl, fun _ => rfl⟩

/-- Lines 268-298 on a client just cleaned up: the record left behind is
consistent, and no lookup and no log line is among the events. -/
theorem m_challenge_generate_step (env : Env) (c0 c1 : Client) (oper_p : oper_conf)
    (evs : List Event)
    (hcl : c0.localClient = some { challenge := none, chal_time := 0 })
    (hop : c0.user.opername = none)
    (hrun : m_challenge_generate env c0 oper_p = some (c1, evs)) :
    RecordConsistent c1 ∧
    (∀ username orighost sockhost name,
      Event.find_oper_conf username orighost sockhost name ∉ evs) ∧
    (∀ file fmt who args, Event.ilog file fmt who args ∉ evs) := by
  obtain ⟨⟨rest, hev, hrest⟩, hfalse, htrue⟩ := challenge_generated_cases env oper_p
  have hcall1 : ∀ username orighost sockhost name,
      Event.find_oper_conf username orighost sockhost name ≠ generator_call oper_p := by
    intro username orighost sockhost name
    unfold generator_call
    split <;> simp
  have hcall2 : ∀ file fmt who args,
      Event.ilog file fmt who args ≠ generator_call oper_p := by
    intro file fmt who args
    unfold generator_call
    split <;> simp
  have hg1 : ∀ username orighost sockhost name,
      Event.find_oper_conf username orighost sockhost name ∉
        (challenge_generated env oper_p none none).events := by
    intro username orighost sockhost name
    rw [hev]
    rcases hrest with h | h <;> subst h <;> simp [hcall1]
  have hg2 : ∀ file fmt who args,
      Event.ilog file fmt who args ∉ (challenge_generated env oper_p none none).events := by
    intro file fmt who args
    rw [hev]
    rcases hrest with h | h <;> subst h <;> simp [hcall2]
  simp only [m_challenge_generate, hcl] at hrun
  by_cases hs : (challenge_generated env oper_p none none).success = true
  · obtain ⟨text, resp, hch, hresp⟩ := htrue hs
    rw [if_pos hs, hch] at hrun
    simp only at hrun
    cases hl : challenge_lines env c0 (CHALLENGE_WIDTH env) (text.length + 1) text with
    | none => rw [hl] at hrun; cases hrun
    | some lines =>
      rw [hl] at hrun
      simp only [Option.some.injEq, Prod.mk.injEq] at hrun
      obtain ⟨hc1, hevs⟩ := hrun
      have hlines := challenge_lines_events env c0 (CHALLENGE_WIDTH env) _ text lines hl
      refine ⟨?_, ?_, ?_⟩
      · rw [← hc1, hresp]
        exact ⟨_, rfl, rfl, fun h => by cases h⟩
      · intro username orighost sockhost name hmem
        rw [← hevs] at hmem
        simp only [List.mem_append, List.mem_singleton] at hmem
        rcases hmem with (h | h) | h
        · exact hg1 _ _ _ _ h
        · obtain ⟨chunk, hch2⟩ := hlines _ h
          simp [challenge_line] at hch2
        · cases h
      · intro file fmt who args hmem
        rw [← hevs] at hmem
        simp only [List.mem_append, List.mem_singleton] at hmem
        rcases hmem with (h | h) | h
        · exact hg2 _ _ _ _ h
        · obtain ⟨chunk, hch2⟩ := hlines _ h
          simp [challenge_line] at hch2
        · cases h
  · have hs2 : (challenge_generated env oper_p none none).success = false := by simpa using hs
    obtain ⟨-, hresp⟩ := hfalse hs2
    rw [if_neg hs, hresp] at hrun
    simp only [Option.some.injEq, Prod.mk.injEq] at hrun
    obtain ⟨hc1, hevs⟩ := hrun
    refine ⟨?_, ?_, ?_⟩
    · rw [← hc1]
      exact ⟨_, rfl, by simp [hop], fun _ => rfl⟩
    · intro username orighost sockhost name hmem
      rw [← hevs] at hmem
      simp only [List.mem_append, List.mem_singleton] at hmem
      rcases hmem with h | h
      · exact hg1 _ _ _ _ h
      · cases h
    · intro file fmt who args hmem
      rw [← hevs] at hmem
      simp only [List.mem_append, List.mem_singleton] at hmem
      rcases hmem with h | h
      · exact hg2 _ _ _ _ h
      · cases h

/-- The optional operator notice is never a log line. -/
theorem ilog_not_mem_notice (env : Env) (c : Client) (fmt : String)
    (file : LogFile) (fmt2 : String) (who : Option CStr) (args : List CStr) :
    Event.ilog file fmt2 who args ∉ failed_oper_notice env c fmt := by
  unfold failed_oper_notice
  split <;> simp

/-- A consistent record is a safe one. -/
theorem recordSafe_of_consistent (c : Client) (h : RecordConsistent c) : RecordSafe c := by
  obtain ⟨lc, h1, h2, h3⟩ := h
  exact ⟨lc, h1, fun h4 => by rw [← h2]; exact h4, h3⟩

/-- One command from a client with a safe record: if `oper_up` does not write
`localClient` the record is safe afterwards; if the record was consistent and
`oper_up` is not called it is consistent afterwards; and every lookup made and
every `L_FOPER` log line written names an identity that is present. -/
theorem m_challenge_step (env : Env) (c c1 : Client) (parv1 : CStr) (evs : List Event)
    (hinv : RecordSafe c)
    (hrun : m_challenge env c parv1 = some (c1, evs)) :
    (OperUpLocal env → RecordSafe c1) ∧
    (RecordConsistent c → (∀ o, Event.oper_up o ∉ evs) → RecordConsistent c1) ∧
    (∀ username orighost sockhost name,
      Event.find_oper_conf username orighost sockhost name ∈ evs → name.isSome = true) ∧
    (∀ fmt who args, Event.ilog LogFile.L_FOPER fmt who args ∈ evs → who.isSome = true) := by
  have hinv0 := hinv
  obtain ⟨lc, hlocal, hiff, htime⟩ := hinv
  have hclean := cleanup_challenge_local c lc hlocal
  have hcons := recordConsistent_cleanup c lc hlocal
  have hcsafe := recordSafe_of_consistent _ hcons
  by_cases hg : env.oper_secure_only = true ∧ c.IsSecureClient = false
  · rw [m_challenge_insecure env c parv1 hg] at hrun
    simp only [Option.some.injEq, Prod.mk.injEq] at hrun
    obtain ⟨hc1, hevs⟩ := hrun
    subst hc1 hevs
    refine ⟨fun _ => hinv0, fun h _ => h, ?_, ?_⟩
    · intro username orighost sockhost name h
      simp [find_oper_conf_not_mem_notice] at h
    · intro fmt who args h
      simp [ilog_not_mem_notice] at h
  by_cases ho : c.IsOper = true
  · rw [m_challenge_already_oper env c parv1 hg ho] at hrun
    simp only [Option.some.injEq, Prod.mk.injEq] at hrun
    obtain ⟨hc1, hevs⟩ := hrun
    subst hc1 hevs
    exact ⟨fun _ => hinv0, fun h _ => h, by simp, by simp⟩
  have ho2 : c.IsOper = false := by simpa using ho
  by_cases hname : parv1.head? = some '+'
  · obtain ⟨response, hparv⟩ : ∃ response, parv1 = '+' :: response := by
      cases parv1 with
      | nil => simp at hname
      | cons a rest =>
        simp only [List.head?_cons, Option.some.injEq] at hname
        exact ⟨rest, by rw [hname]⟩
    subst hparv
    rw [m_challenge_plus env c response hg ho2] at hrun
    cases hch : lc.challenge with
    | none =>
      rw [response_not_expecting env c lc response hlocal hch] at hrun
      simp only [Option.some.injEq, Prod.mk.injEq] at hrun
      obtain ⟨hc1, hevs⟩ := hrun
      subst hc1 hevs
      exact ⟨fun _ => hinv0, fun h _ => h, by simp, by simp⟩
    | some expected =>
      have hname2 : c.user.opername.isSome = true := hiff (by rw [hch]; rfl)
      by_cases hexp : env.rb_current_time - lc.chal_time > 180
      · rw [response_expired env c lc expected response hlocal hch hexp] at hrun
        simp only [Option.some.injEq, Prod.mk.injEq] at hrun
        obtain ⟨hc1, hevs⟩ := hrun
        subst hc1 hevs
        refine ⟨fun _ => hcsafe, fun _ _ => hcons, ?_, ?_⟩
        · intro username orighost sockhost name h
          simp [find_oper_conf_not_mem_notice] at h
        · intro fmt who args h
          simp [ilog_not_mem_notice] at h
          rw [h.2.1]; exact hname2
      · have hfresh : env.rb_current_time - lc.chal_time ≤ 180 := by omega
        by_cases hne : response ≠ expected
        · rw [response_mismatched env c lc expected response hlocal hch hfresh hne] at hrun
          simp only [Option.some.injEq, Prod.mk.injEq] at hrun
          obtain ⟨hc1, hevs⟩ := hrun
          subst hc1 hevs
          refine ⟨fun _ => hcsafe, fun _ _ => hcons, ?_, ?_⟩
          · intro username orighost sockhost name h
            simp [find_oper_conf_not_mem_notice] at h
          · intro fmt who args h
            simp [ilog_not_mem_notice] at h
            rw [h.2.1]; exact hname2
        · have heq : response = expected := not_not.mp hne
          subst heq
          cases hfind : env.find_oper_conf c.username c.orighost c.sockhost c.user.opername with
          | none =>
            rw [response_revoked env c lc response hlocal hch hfresh hfind] at hrun
            simp only [Option.some.injEq, Prod.mk.injEq] at hrun
            obtain ⟨hc1, hevs⟩ := hrun
            subst hc1 hevs
            refine ⟨fun _ => hcsafe, fun _ _ => hcons, ?_, ?_⟩
            · intro username orighost sockhost name h
              simp [find_oper_conf_not_mem_notice] at h
              rw [h.2.2.2]; exact hname2
            · intro fmt who args h
              simp [ilog_not_mem_notice] at h
              rw [h.2.1]; exact hname2
          | some o =>
            rw [response_granted env c lc response o hlocal hch hfresh hfind] at hrun
            simp only [Option.some.injEq, Prod.mk.injEq] at hrun
            obtain ⟨hc1, hevs⟩ := hrun
            subst hc1 hevs
            refine ⟨?_, ?_, ?_, ?_⟩
            · intro hframe
              have f1 := hframe (cleanup_challenge c) o
              have hcl : (cleanup_challenge c).localClient
                  = some { challenge := none, chal_time := 0 } := by rw [hclean]
              refine ⟨{ challenge := none, chal_time := 0 }, by rw [f1, hcl], ?_, fun _ => rfl⟩
              intro h4
              cases h4
            · intro _ hno
              exact absurd (by simp) (hno o)
            · intro username orighost sockhost name h
              simp at h
              rw [h.2.2.2]; exact hname2
            · intro fmt who args h
              simp at h
  · rw [m_challenge_name env c parv1 hg ho2 hname] at hrun
    cases hfind : env.find_oper_conf c.username c.orighost c.sockhost (some parv1) with
    | none =>
      rw [issue_no_conf env c parv1 hfind] at hrun
      simp only [Option.some.injEq, Prod.mk.injEq] at hrun
      obtain ⟨hc1, hevs⟩ := hrun
      subst hc1 hevs
      refine ⟨fun _ => hcsafe, fun _ _ => hcons, ?_, ?_⟩
      · intro username orighost sockhost name h
        simp [find_oper_conf_not_mem_notice] at h
        rw [h.2.2.2]; rfl
      · intro fmt who args h
        simp [ilog_not_mem_notice] at h
        rw [h.2.1]; rfl
    | some o =>
      by_cases hkey : o.rsa_pubkey = none ∧ o.x25519_pubkey = none
      · rw [issue_no_key env c parv1 o hfind hkey] at hrun
        simp only [Option.some.injEq, Prod.mk.injEq] at hrun
        obtain ⟨hc1, hevs⟩ := hrun
        subst hc1 hevs
        refine ⟨fun _ => hcsafe, fun _ _ => hcons, ?_, ?_⟩
        · intro username orighost sockhost name h
          simp at h
          rw [h.2.2.2]; rfl
        · intro fmt who args h
          simp at h
      by_cases hssl : o.NeedSSL = true ∧ c.IsSecureClient = false
      · rw [issue_need_ssl env c parv1 o hfind hkey hssl] at hrun
        simp only [Option.some.injEq, Prod.mk.injEq] at hrun
        obtain ⟨hc1, hevs⟩ := hrun
        subst hc1 hevs
        refine ⟨fun _ => hcsafe, fun _ _ => hcons, ?_, ?_⟩
        · intro username orighost sockhost name h
          simp [find_oper_conf_not_mem_notice] at h
          rw [h.2.2.2]; rfl
        · intro fmt who args h
          simp [ilog_not_mem_notice] at h
          rw [h.2.1]; rfl
      by_cases hfp : certfp_mismatch c o = true
      · rw [issue_certfp env c parv1 o hfind hkey hssl hfp] at hrun
        simp only [Option.some.injEq, Prod.mk.injEq] at hrun
        obtain ⟨hc1, hevs⟩ := hrun
        subst hc1 hevs
        refine ⟨fun _ => hcsafe, fun _ _ => hcons, ?_, ?_⟩
        · intro username orighost sockhost name h
          simp [find_oper_conf_not_mem_notice] at h
          rw [h.2.2.2]; rfl
        · intro fmt who args h
          simp [ilog_not_mem_notice] at h
          rw [h.2.1]; rfl
      have hfp2 : certfp_mismatch c o = false := by simpa using hfp
      rw [issue_reaches_generator env c parv1 o hfind hkey hssl hfp2] at hrun
      cases hgen : m_challenge_generate env (cleanup_challenge c) o with
      | none => rw [hgen] at hrun; cases hrun
      | some r =>
        obtain ⟨c2, evs2⟩ := r
        rw [hgen] at hrun
        simp only [Option.map_some', Option.some.injEq, Prod.mk.injEq] at hrun
        obtain ⟨hc1, hevs⟩ := hrun
        subst hc1 hevs
        obtain ⟨hrec, hno1, hno2⟩ := m_challenge_generate_step env (cleanup_challenge c) c2 o evs2
          (by rw [hclean]) (by rw [hclean]) hgen
        refine ⟨fun _ => recordSafe_of_consistent _ hrec, fun _ _ => hrec, ?_, ?_⟩
        · intro username orighost sockhost name h
          rcases List.mem_cons.mp h with h1 | h1
          · simp only [Event.find_oper_conf.injEq] at h1
            rw [h1.2.2.2]; rfl
          · exact absurd h1 (hno1 _ _ _ _)
        · intro fmt who args h
          rcases List.mem_cons.mp h with h1 | h1
          · cases h1
          · exact absurd h1 (hno2 _ _ _ _)

/-- A sequence of commands, on servers whose `oper_up` does not write
`localClient`, takes a safe record to a safe record. -/
theorem run_commands_safe :
    ∀ (cmds : List (Env × CStr)) (c0 c : Client) (evs : List Event),
      RecordSafe c0 → (∀ cmd ∈ cmds, OperUpLocal cmd.1) →
      run_commands cmds c0 = some (c, evs) → RecordSafe c := by
  intro cmds
  induction cmds with
  | nil =>
    intro c0 c evs hinv _ hrun
    simp only [run_commands, Option.some.injEq, Prod.mk.injEq] at hrun
    rw [← hrun.1]; exact hinv
  | cons cmd rest ih =>
    intro c0 c evs hinv hframe hrun
    obtain ⟨env, parv1⟩ := cmd
    simp only [run_commands] at hrun
    cases hstep : m_challenge env c0 parv1 with
    | none => rw [hstep] at hrun; cases hrun
    | some r =>
      obtain ⟨c1, evs1⟩ := r
      rw [hstep] at hrun
      simp only at hrun
      cases hrest : run_commands rest c1 with
      | none => rw [hrest] at hrun; cases hrun
      | some r2 =>
        obtain ⟨c2, evs2⟩ := r2
        rw [hrest] at hrun
        simp only [Option.some.injEq, Prod.mk.injEq] at hrun
        have h1 := (m_challenge_step env c0 c1 parv1 evs1 hinv hstep).1
          (hframe (env, parv1) (List.mem_cons_self _ _))
        rw [← hrun.1]
        exact ih c1 c2 evs2 h1 (fun cmd hmem => hframe cmd (List.mem_cons_of_mem _ hmem)) hrest

/-- A sequence of commands in which `oper_up` is never called takes a consistent
record to a consistent record, whatever `oper_up` would do. -/
theorem run_commands_consistent :
    ∀ (cmds : List (Env × CStr)) (c0 c : Client) (evs : List Event),
      RecordConsistent c0 → run_commands cmds c0 = some (c, evs) →
      (∀ o, Event.oper_up o ∉ evs) → RecordConsistent c := by
  intro cmds
  induction cmds with
  | nil =>
    intro c0 c evs hinv hrun _
    simp only [run_commands, Option.some.injEq, Prod.mk.injEq] at hrun
    rw [← hrun.1]; exact hinv
  | cons cmd rest ih =>
    intro c0 c evs hinv hrun hno
    obtain ⟨env, parv1⟩ := cmd
    simp only [run_commands] at hrun
    cases hstep : m_challenge env c0 parv1 with
    | none => rw [hstep] at hrun; cases hrun
    | some r =>
      obtain ⟨c1, evs1⟩ := r
      rw [hstep] at hrun
      simp only at hrun
      cases hrest : run_commands rest c1 with
      | none => rw [hrest] at hrun; cases hrun
      | some r2 =>
        obtain ⟨c2, evs2⟩ := r2
        rw [hrest] at hrun
        simp only [Option.some.injEq, Prod.mk.injEq] at hrun
        obtain ⟨hc, hevs⟩ := hrun
        have hno1 : ∀ o, Event.oper_up o ∉ evs1 := fun o h =>
          hno o (by rw [← hevs]; exact List.mem_append_left _ h)
        have hno2 : ∀ o, Event.oper_up o ∉ evs2 := fun o h =>
          hno o (by rw [← hevs]; exact List.mem_append_right _ h)
        have h1 := (m_challenge_step env c0 c1 parv1 evs1
          (recordSafe_of_consistent _ hinv) hstep).2.1 hinv hno1
        rw [← hc]
        exact ih c1 c2 evs2 h1 hrest hno2

/-! ### The claims -/

/-- C1: for a local, non-operator principal that passes the secure-connection
gate, a `+response` command always returns, and it calls `oper_up` with a
credential `oper_p` if and only if an expected response is stored, it equals the
text after the `+`, `now - chal_time <= 180`, and the lookup made at that moment
on (username, orighost, sockhost, stored opername) returns `oper_p`. -/
theorem C1_elevates_iff (env : Env) (c : Client) (lc : LocalClient) (response : CStr)
    (hlocal : c.localClient = some lc)
    (hgate : ¬ (env.oper_secure_only = true ∧ c.IsSecureClient = false))
    (hoper : c.IsOper = false) :
    ∃ c1 evs, m_challenge env c ('+' :: response) = some (c1, evs) ∧
      ∀ oper_p, Event.oper_up oper_p ∈ evs ↔
        ((∃ expected, lc.challenge = some expected ∧ response = expected) ∧
          env.rb_current_time - lc.chal_time ≤ 180 ∧
          env.find_oper_conf c.username c.orighost c.sockhost c.user.opername
            = some oper_p) := by
  rw [m_challenge_plus env c response hgate hoper]
  cases hch : lc.challenge with
  | none =>
    exact ⟨_, _, response_not_expecting env c lc response hlocal hch, by simp⟩
  | some expected =>
    by_cases hexp : env.rb_current_time - lc.chal_time > 180
    · refine ⟨_, _, response_expired env c lc expected response hlocal hch hexp, fun oper_p => ?_⟩
      have hnot : ¬ env.rb_current_time - lc.chal_time ≤ 180 := by omega
      simp [oper_up_not_mem_notice, hnot]
    · have hfresh : env.rb_current_time - lc.chal_time ≤ 180 := by omega
      by_cases hne : response ≠ expected
      · refine ⟨_, _, response_mismatched env c lc expected response hlocal hch hfresh hne,
          fun oper_p => ?_⟩
        simp [oper_up_not_mem_notice, hne]
      · have heq : response = expected := not_not.mp hne
        subst heq
        cases hfind : env.find_oper_conf c.username c.orighost c.sockhost c.user.opername with
        | none =>
          refine ⟨_, _, response_revoked env c lc response hlocal hch hfresh hfind,
            fun oper_p => ?_⟩
          simp [oper_up_not_mem_notice]
        | some o =>
          refine ⟨_, _, response_granted env c lc response o hlocal hch hfresh hfind,
            fun oper_p => ?_⟩
          simp [hfresh]
          exact eq_comm

/-- C1 at a concrete input: `pendingClient` answering `+QUJD` on `exampleEnv`. -/
theorem C1_elevates_iff_witness :
    ∃ c1 evs, m_challenge exampleEnv pendingClient ('+' :: "QUJD".toList) = some (c1, evs) ∧
      ∀ oper_p, Event.oper_up oper_p ∈ evs ↔
        ((∃ expected, some "QUJD".toList = some expected ∧ "QUJD".toList = expected) ∧
          exampleEnv.rb_current_time - 1000 ≤ 180 ∧
          exampleEnv.find_oper_conf pendingClient.username pendingClient.orighost
            pendingClient.sockhost pendingClient.user.opername = some oper_p) :=
  C1_elevates_iff exampleEnv pendingClient { challenge := some "QUJD".toList, chal_time := 1000 }
    "QUJD".toList rfl (by decide) rfl

/-- C2, as stated, fails: `pendingClient` (plain connection, no certificate)
answers correctly and in time while the store resolves `alice` to `strictConf`
(no public key, secure transport required, a fingerprint the client lacks); the
handler calls `oper_up` and sends no `ERR_NOOPERHOST`. -/
theorem C2_counterexample :
    (strictConf.rsa_pubkey = none ∧ strictConf.x25519_pubkey = none) ∧
    (strictConf.NeedSSL = true ∧ pendingClient.IsSecureClient = false) ∧
    certfp_mismatch pendingClient strictConf = true ∧
    m_challenge strictEnv pendingClient ('+' :: "QUJD".toList) =
      some ({ exampleClient with IsOper := true },
        [Event.find_oper_conf "u".toList "h".toList "10.0.0.1".toList (some "alice".toList),
         Event.oper_up strictConf,
         Event.ilog LogFile.L_OPERED "OPER %s by %s!%s@%s (%s)" none
           ["al".toList, "u".toList, "h".toList, "10.0.0.1".toList]]) := by
  decide

/-- C2 (amended): for a correct, unexpired response the one authorization
condition at verify time is that the lookup for the stored opername returns a
credential. Without one the reply is `ERR_NOOPERHOST`, the record is cleared and
`oper_up` is not called; with one, `oper_up` is called with it whatever its public
keys, `NeedSSL` flag and fingerprint are. -/
theorem C2_verify_checks_lookup_only (env : Env) (c : Client) (lc : LocalClient)
    (expected : CStr)
    (hlocal : c.localClient = some lc)
    (hgate : ¬ (env.oper_secure_only = true ∧ c.IsSecureClient = false))
    (hoper : c.IsOper = false)
    (hpending : lc.challenge = some expected)
    (hfresh : env.rb_current_time - lc.chal_time ≤ 180) :
    (env.find_oper_conf c.username c.orighost c.sockhost c.user.opername = none →
      m_challenge env c ('+' :: expected) =
        some (cleanup_challenge c,
          [Event.find_oper_conf c.username c.orighost c.sockhost c.user.opername,
           Event.sendto_one_numeric Numeric.ERR_NOOPERHOST,
           Event.ilog LogFile.L_FOPER "FAILED OPER (%s) by (%s!%s@%s) (%s)" c.user.opername
             [c.name, c.username, c.host, c.sockhost]]
          ++ failed_oper_notice env c
               "Failed CHALLENGE attempt - host mismatch by %s (%s@%s)")) ∧
    (∀ oper_p,
      env.find_oper_conf c.username c.orighost c.sockhost c.user.opername = some oper_p →
      m_challenge env c ('+' :: expected) =
        some (env.oper_up (cleanup_challenge c) oper_p,
          [Event.find_oper_conf c.username c.orighost c.sockhost c.user.opername,
           Event.oper_up oper_p,
           Event.ilog LogFile.L_OPERED "OPER %s by %s!%s@%s (%s)"
             (env.oper_up (cleanup_challenge c) oper_p).user.opername
             [(env.oper_up (cleanup_challenge c) oper_p).name,
              (env.oper_up (cleanup_challenge c) oper_p).username,
              (env.oper_up (cleanup_challenge c) oper_p).host,
              (env.oper_up (cleanup_challenge c) oper_p).sockhost]])) := by
  rw [m_challenge_plus env c expected hgate hoper]
  exact ⟨fun hfind => response_revoked env c lc expected hlocal hpending hfresh hfind,
    fun oper_p hfind => response_granted env c lc expected oper_p hlocal hpending hfresh hfind⟩

/-- C2 (amended) at a concrete input: `pendingClient` on `strictEnv`. -/
theorem C2_verify_checks_lookup_only_witness :
    m_challenge strictEnv pendingClient ('+' :: "QUJD".toList) =
      some (strictEnv.oper_up (cleanup_challenge pendingClient) strictConf,
        [Event.find_oper_conf pendingClient.username pendingClient.orighost
           pendingClient.sockhost pendingClient.user.opername,
         Event.oper_up strictConf,
         Event.ilog LogFile.L_OPERED "OPER %s by %s!%s@%s (%s)"
           (strictEnv.oper_up (cleanup_challenge pendingClient) strictConf).user.opername
           [(strictEnv.oper_up (cleanup_challenge pendingClient) strictConf).name,
            (strictEnv.oper_up (cleanup_challenge pendingClient) strictConf).username,
            (strictEnv.oper_up (cleanup_challenge pendingClient) strictConf).host,
            (strictEnv.oper_up (cleanup_challenge pendingClient) strictConf).sockhost]]) :=
  (C2_verify_checks_lookup_only strictEnv pendingClient
    { challenge := some "QUJD".toList, chal_time := 1000 } "QUJD".toList rfl (by decide) rfl rfl
    (by decide)).2 strictConf rfl

/-- C3, as stated, fails after a grant: on `namingEnv`, `pendingClient` sends the
correct `+QUJD` and is granted; the client is then `operAlice`, whose claimed-name
field holds `alice` again, and a repeated `+QUJD` is not the silent return of a
client with nothing pending: it is answered with `RPL_YOUREOPER` and the
operator motd (lines 130-134). -/
theorem C3_counterexample :
    m_challenge namingEnv pendingClient ('+' :: "QUJD".toList) =
      some (operAlice,
        [Event.find_oper_conf "u".toList "h".toList "10.0.0.1".toList (some "alice".toList),
         Event.oper_up aliceConf,
         Event.ilog LogFile.L_OPERED "OPER %s by %s!%s@%s (%s)" (some "alice".toList)
           ["al".toList, "u".toList, "h".toList, "10.0.0.1".toList]]) ∧
    operAlice.user.opername = some "alice".toList ∧
    m_challenge namingEnv operAlice ('+' :: "QUJD".toList) =
      some (operAlice,
        [Event.sendto_one Numeric.RPL_YOUREOPER ["irc.example".toList, "al".toList],
         Event.send_oper_motd]) := by
  decide

/-- C3 (amended): with a response pending, one `+response` command of a local
principal past the gates always returns, and `cleanup_challenge` has by then
reset all three fields of the record it was given. Either (Mismatched, Expired,
AuthorizationRevoked) `oper_up` is not called, the client is left exactly as
`cleanup_challenge` made it, and a repeated `+response` past the
secure-connection gate, with any text and at any moment, does nothing; or
(Granted) `oper_up` is called on the cleaned-up client and the client afterwards
is what `oper_up` returns: if that has the same `localClient`, a repeated
`+response` leaves the client as it is and never calls `oper_up`, and if it is
marked as operator, the repeated command past the secure-connection gate is
answered with `RPL_YOUREOPER` and the operator motd. -/
theorem C3_single_shot (env env2 : Env) (c : Client) (lc : LocalClient)
    (expected response response2 : CStr)
    (hlocal : c.localClient = some lc)
    (hgate : ¬ (env.oper_secure_only = true ∧ c.IsSecureClient = false))
    (hoper : c.IsOper = false)
    (hpending : lc.challenge = some expected) :
    (cleanup_challenge c).localClient = some { challenge := none, chal_time := 0 } ∧
    (cleanup_challenge c).user.opername = none ∧
    ∃ c1 evs, m_challenge env c ('+' :: response) = some (c1, evs) ∧
      (((∀ o, Event.oper_up o ∉ evs) ∧ c1 = cleanup_challenge c ∧
          (¬ (env2.oper_secure_only = true ∧ c.IsSecureClient = false) →
            m_challenge env2 c1 ('+' :: response2) = some (c1, []))) ∨
        (∃ o, Event.oper_up o ∈ evs ∧ c1 = env.oper_up (cleanup_challenge c) o ∧
          (c1.localClient = (cleanup_challenge c).localClient →
            ∃ evs2, m_challenge env2 c1 ('+' :: response2) = some (c1, evs2) ∧
              (∀ o2, Event.oper_up o2 ∉ evs2)) ∧
          (c1.IsOper = true →
            ¬ (env2.oper_secure_only = true ∧ c1.IsSecureClient = false) →
            m_challenge env2 c1 ('+' :: response2) =
              some (c1,
                [Event.sendto_one Numeric.RPL_YOUREOPER [env2.me_name, c1.name],
                 Event.send_oper_motd])))) := by
  have hclean := cleanup_challenge_local c lc hlocal
  have hcl : (cleanup_challenge c).localClient = some { challenge := none, chal_time := 0 } := by
    rw [hclean]
  have hname : (cleanup_challenge c).user.opername = none := by rw [hclean]
  have hnext : ¬ (env2.oper_secure_only = true ∧ c.IsSecureClient = false) →
      m_challenge env2 (cleanup_challenge c) ('+' :: response2) =
        some (cleanup_challenge c, []) := by
    intro hgate2
    have hg : ¬ (env2.oper_secure_only = true ∧
        (cleanup_challenge c).IsSecureClient = false) := by
      rw [hclean]; exact hgate2
    have ho : (cleanup_challenge c).IsOper = false := by rw [hclean]; exact hoper
    rw [m_challenge_plus env2 (cleanup_challenge c) response2 hg ho]
    exact response_not_expecting env2 _ _ response2 hcl rfl
  refine ⟨hcl, hname, ?_⟩
  rw [m_challenge_plus env c response hgate hoper]
  by_cases hexp : env.rb_current_time - lc.chal_time > 180
  · exact ⟨_, _, response_expired env c lc expected response hlocal hpending hexp,
      Or.inl ⟨fun o => by simp [oper_up_not_mem_notice], rfl, hnext⟩⟩
  · have hfresh : env.rb_current_time - lc.chal_time ≤ 180 := by omega
    by_cases hne : response ≠ expected
    · exact ⟨_, _, response_mismatched env c lc expected response hlocal hpending hfresh hne,
        Or.inl ⟨fun o => by simp [oper_up_not_mem_notice], rfl, hnext⟩⟩
    · have heq : response = expected := not_not.mp hne
      subst heq
      cases hfind : env.find_oper_conf c.username c.orighost c.sockhost c.user.opername with
      | none =>
        exact ⟨_, _, response_revoked env c lc response hlocal hpending hfresh hfind,
          Or.inl ⟨fun o => by simp [oper_up_not_mem_notice], rfl, hnext⟩⟩
      | some o =>
        refine ⟨_, _, response_granted env c lc response o hlocal hpending hfresh hfind,
          Or.inr ⟨o, by simp, rfl, ?_, ?_⟩⟩
        · intro hsame
          obtain ⟨evs2, h1, h2, -⟩ := second_response env2
            (env.oper_up (cleanup_challenge c) o) response2 (by rw [hsame, hcl])
          exact ⟨evs2, h1, h2⟩
        · intro hop hgate2
          exact m_challenge_already_oper env2 _ _ hgate2 hop

/-- C3 (amended) at concrete inputs: `pendingClient` sends a wrong response on
`exampleEnv` (mismatch, then silence), and the right one on `namingEnv` (grant,
then `RPL_YOUREOPER`). -/
theorem C3_single_shot_witness :
    (∃ c1 evs, m_challenge exampleEnv pendingClient ('+' :: "AAAA".toList) = some (c1, evs) ∧
      (((∀ o, Event.oper_up o ∉ evs) ∧ c1 = cleanup_challenge pendingClient ∧
          (¬ (exampleEnv.oper_secure_only = true ∧ pendingClient.IsSecureClient = false) →
            m_challenge exampleEnv c1 ('+' :: "QUJD".toList) = some (c1, []))) ∨
        (∃ o, Event.oper_up o ∈ evs ∧
          c1 = exampleEnv.oper_up (cleanup_challenge pendingClient) o ∧
          (c1.localClient = (cleanup_challenge pendingClient).localClient →
            ∃ evs2, m_challenge exampleEnv c1 ('+' :: "QUJD".toList) = some (c1, evs2) ∧
              (∀ o2, Event.oper_up o2 ∉ evs2)) ∧
          (c1.IsOper = true →
            ¬ (exampleEnv.oper_secure_only = true ∧ c1.IsSecureClient = false) →
            m_challenge exampleEnv c1 ('+' :: "QUJD".toList) =
              some (c1,
                [Event.sendto_one Numeric.RPL_YOUREOPER [exampleEnv.me_name, c1.name],
                 Event.send_oper_motd]))))) ∧
    (∃ c1 evs, m_challenge namingEnv pendingClient ('+' :: "QUJD".toList) = some (c1, evs) ∧
      (((∀ o, Event.oper_up o ∉ evs) ∧ c1 = cleanup_challenge pendingClient ∧
          (¬ (namingEnv.oper_secure_only = true ∧ pendingClient.IsSecureClient = false) →
            m_challenge namingEnv c1 ('+' :: "QUJD".toList) = some (c1, []))) ∨
        (∃ o, Event.oper_up o ∈ evs ∧
          c1 = namingEnv.oper_up (cleanup_challenge pendingClient) o ∧
          (c1.localClient = (cleanup_challenge pendingClient).localClient →
            ∃ evs2, m_challenge namingEnv c1 ('+' :: "QUJD".toList) = some (c1, evs2) ∧
              (∀ o2, Event.oper_up o2 ∉ evs2)) ∧
          (c1.IsOper = true →
            ¬ (namingEnv.oper_secure_only = true ∧ c1.IsSecureClient = false) →
            m_challenge namingEnv c1 ('+' :: "QUJD".toList) =
              some (c1,
                [Event.sendto_one Numeric.RPL_YOUREOPER [namingEnv.me_name, c1.name],
                 Event.send_oper_motd]))))) :=
  ⟨(C3_single_shot exampleEnv exampleEnv pendingClient
      { challenge := some "QUJD".toList, chal_time := 1000 } "QUJD".toList "AAAA".toList
      "QUJD".toList rfl (by decide) rfl rfl).2.2,
   (C3_single_shot namingEnv namingEnv pendingClient
      { challenge := some "QUJD".toList, chal_time := 1000 } "QUJD".toList "QUJD".toList
      "QUJD".toList rfl (by decide) rfl rfl).2.2⟩

/-- C4, as stated, fails: the challenge of `pendingClient` was issued at time
`1000`; at time `1180`, exactly 180 seconds later, the correct response is not
treated as expired: `oper_up` is called. -/
theorem C4_counterexample :
    pendingClient.localClient = some { challenge := some "QUJD".toList, chal_time := 1000 } ∧
    m_challenge { exampleEnv with rb_current_time := 1000 + 180 } pendingClient
        ('+' :: "QUJD".toList) =
      some ({ exampleClient with IsOper := true },
        [Event.find_oper_conf "u".toList "h".toList "10.0.0.1".toList (some "alice".toList),
         Event.oper_up aliceConf,
         Event.ilog LogFile.L_OPERED "OPER %s by %s!%s@%s (%s)" none
           ["al".toList, "u".toList, "h".toList, "10.0.0.1".toList]]) := by
  decide

/-- C4 (amended): for a challenge issued at `chal_time`, a correct response with
a resolving credential is granted at `chal_time + 179` and still at exactly
`chal_time + 180`; it is treated as expired from `chal_time + 181` on. -/
theorem C4_expiry_boundary (env : Env) (c : Client) (lc : LocalClient) (expected : CStr)
    (oper_p : oper_conf)
    (hlocal : c.localClient = some lc)
    (hgate : ¬ (env.oper_secure_only = true ∧ c.IsSecureClient = false))
    (hoper : c.IsOper = false)
    (hpending : lc.challenge = some expected)
    (hfind : env.find_oper_conf c.username c.orighost c.sockhost c.user.opername
      = some oper_p) :
    ((env.rb_current_time = lc.chal_time + 179 ∨ env.rb_current_time = lc.chal_time + 180) →
      m_challenge env c ('+' :: expected) =
        some (env.oper_up (cleanup_challenge c) oper_p,
          [Event.find_oper_conf c.username c.orighost c.sockhost c.user.opername,
           Event.oper_up oper_p,
           Event.ilog LogFile.L_OPERED "OPER %s by %s!%s@%s (%s)"
             (env.oper_up (cleanup_challenge c) oper_p).user.opername
             [(env.oper_up (cleanup_challenge c) oper_p).name,
              (env.oper_up (cleanup_challenge c) oper_p).username,
              (env.oper_up (cleanup_challenge c) oper_p).host,
              (env.oper_up (cleanup_challenge c) oper_p).sockhost]])) ∧
    (env.rb_current_time ≥ lc.chal_time + 181 →
      m_challenge env c ('+' :: expected) =
        some (cleanup_challenge c,
          [Event.sendto_one Numeric.ERR_PASSWDMISMATCH [env.me_name, c.name],
           Event.ilog LogFile.L_FOPER "EXPIRED CHALLENGE (%s) by (%s!%s@%s) (%s)"
             c.user.opername [c.name, c.username, c.host, c.sockhost]]
          ++ failed_oper_notice env c "Expired CHALLENGE attempt by %s (%s@%s)")) := by
  rw [m_challenge_plus env c expected hgate hoper]
  constructor
  · intro ht
    exact response_granted env c lc expected oper_p hlocal hpending (by omega) hfind
  · intro ht
    exact response_expired env c lc expected expected hlocal hpending (by omega)

/-- C4 (amended) at a concrete input: `pendingClient` at time `1180`. -/
theorem C4_expiry_boundary_witness :
    m_challenge { exampleEnv with rb_current_time := 1180 } pendingClient
        ('+' :: "QUJD".toList) =
      some ({ exampleClient with IsOper := true },
        [Event.find_oper_conf "u".toList "h".toList "10.0.0.1".toList (some "alice".toList),
         Event.oper_up aliceConf,
         Event.ilog LogFile.L_OPERED "OPER %s by %s!%s@%s (%s)" none
           ["al".toList, "u".toList, "h".toList, "10.0.0.1".toList]]) :=
  (C4_expiry_boundary { exampleEnv with rb_current_time := 1180 } pendingClient
    { challenge := some "QUJD".toList, chal_time := 1000 } "QUJD".toList aliceConf
    rfl (by decide) rfl rfl rfl).1 (Or.inr (by decide))

/-- C5: with a response pending, a `+response` command of a local principal past
the gates that arrives more than 180 seconds after the issue time is answered,
whatever its text, by `ERR_PASSWDMISMATCH` and the `EXPIRED CHALLENGE` log line,
with no lookup and no `oper_up`; the client is left as `cleanup_challenge` makes
it, and a later issue command is handled from that state exactly as from the
original one. A command that arrives within 180 seconds returns without the
`EXPIRED CHALLENGE` log line and without the `Expired CHALLENGE` notice. -/
theorem C5_expired (env env2 : Env) (c : Client) (lc : LocalClient)
    (expected response parv1 : CStr)
    (hlocal : c.localClient = some lc)
    (hgate : ¬ (env.oper_secure_only = true ∧ c.IsSecureClient = false))
    (hoper : c.IsOper = false)
    (hpending : lc.challenge = some expected) :
    (env.rb_current_time - lc.chal_time > 180 →
      (∃ evs, m_challenge env c ('+' :: response) = some (cleanup_challenge c, evs) ∧
        evs =
          [Event.sendto_one Numeric.ERR_PASSWDMISMATCH [env.me_name, c.name],
           Event.ilog LogFile.L_FOPER "EXPIRED CHALLENGE (%s) by (%s!%s@%s) (%s)"
             c.user.opername [c.name, c.username, c.host, c.sockhost]]
          ++ failed_oper_notice env c "Expired CHALLENGE attempt by %s (%s@%s)" ∧
        (∀ username orighost sockhost name,
          Event.find_oper_conf username orighost sockhost name ∉ evs) ∧
        (∀ oper_p, Event.oper_up oper_p ∉ evs)) ∧
      (cleanup_challenge c).localClient = some { challenge := none, chal_time := 0 } ∧
      (cleanup_challenge c).user.opername = none ∧
      (¬ (env2.oper_secure_only = true ∧ c.IsSecureClient = false) →
        parv1.head? ≠ some '+' →
        m_challenge env2 (cleanup_challenge c) parv1 = m_challenge_issue env2 c parv1)) ∧
    (env.rb_current_time - lc.chal_time ≤ 180 →
      ∃ c1 evs, m_challenge env c ('+' :: response) = some (c1, evs) ∧
        (∀ who args, Event.ilog LogFile.L_FOPER "EXPIRED CHALLENGE (%s) by (%s!%s@%s) (%s)"
          who args ∉ evs) ∧
        (∀ args, Event.sendto_realops_snomask "Expired CHALLENGE attempt by %s (%s@%s)" args
          ∉ evs)) := by
  have hclean := cleanup_challenge_local c lc hlocal
  rw [m_challenge_plus env c response hgate hoper]
  constructor
  · intro hlate
    refine ⟨⟨_, response_expired env c lc expected response hlocal hpending hlate, rfl, ?_, ?_⟩,
      by rw [hclean], by rw [hclean], ?_⟩
    · intro username orighost sockhost name
      simp [find_oper_conf_not_mem_notice]
    · intro oper_p
      simp [oper_up_not_mem_notice]
    · intro hgate2 hname
      have hg : ¬ (env2.oper_secure_only = true ∧
          (cleanup_challenge c).IsSecureClient = false) := by
        rw [hclean]; exact hgate2
      have ho : (cleanup_challenge c).IsOper = false := by rw [hclean]; exact hoper
      rw [m_challenge_name env2 (cleanup_challenge c) parv1 hg ho hname,
        m_challenge_issue_cleanup]
  · intro hfresh
    by_cases hne : response ≠ expected
    · refine ⟨_, _, response_mismatched env c lc expected response hlocal hpending hfresh hne,
        ?_, ?_⟩
      · intro who args
        simp [failed_oper_notice]
      · intro args
        simp [failed_oper_notice]
    · have heq : response = expected := not_not.mp hne
      subst heq
      cases hfind : env.find_oper_conf c.username c.orighost c.sockhost c.user.opername with
      | none =>
        refine ⟨_, _, response_revoked env c lc response hlocal hpending hfresh hfind, ?_, ?_⟩
        · intro who args
          simp [failed_oper_notice]
        · intro args
          simp [failed_oper_notice]
      | some o =>
        refine ⟨_, _, response_granted env c lc response o hlocal hpending hfresh hfind, ?_, ?_⟩
        · intro who args; simp
        · intro args; simp

/-- C5 at a concrete input: `pendingClient` (issued at `1000`) answers correctly
at time `2000`. -/
theorem C5_expired_witness :
    ∃ evs, m_challenge { exampleEnv with rb_current_time := 2000 } pendingClient
        ('+' :: "QUJD".toList) = some (cleanup_challenge pendingClient, evs) ∧
      evs =
        [Event.sendto_one Numeric.ERR_PASSWDMISMATCH ["irc.example".toList, "al".toList],
         Event.ilog LogFile.L_FOPER "EXPIRED CHALLENGE (%s) by (%s!%s@%s) (%s)"
           (some "alice".toList) ["al".toList, "u".toList, "h".toList, "10.0.0.1".toList]]
        ++ failed_oper_notice { exampleEnv with rb_current_time := 2000 } pendingClient
             "Expired CHALLENGE attempt by %s (%s@%s)" ∧
      (∀ username orighost sockhost name,
        Event.find_oper_conf username orighost sockhost name ∉ evs) ∧
      (∀ oper_p, Event.oper_up oper_p ∉ evs) :=
  ((C5_expired { exampleEnv with rb_current_time := 2000 } exampleEnv pendingClient
    { challenge := some "QUJD".toList, chal_time := 1000 } "QUJD".toList "QUJD".toList
    "alice".toList rfl (by decide) rfl rfl).1 (by decide)).1

/-- C6: with a response pending and not expired, a `+response` command of a
local principal past the gates whose text differs from the stored expected
response (a proper beginning of it and a continuation of it included) is answered
by `ERR_PASSWDMISMATCH` and the `FAILED CHALLENGE` log line, with no lookup and
no `oper_up`; the client is left as `cleanup_challenge` makes it (nothing
stored), and a following `+response` command past the gates does nothing. -/
theorem C6_mismatched (env env2 : Env) (c : Client) (lc : LocalClient)
    (expected response response2 : CStr)
    (hlocal : c.localClient = some lc)
    (hgate : ¬ (env.oper_secure_only = true ∧ c.IsSecureClient = false))
    (hoper : c.IsOper = false)
    (hpending : lc.challenge = some expected)
    (hfresh : env.rb_current_time - lc.chal_time ≤ 180)
    (hne : response ≠ expected) :
    (∃ evs, m_challenge env c ('+' :: response) = some (cleanup_challenge c, evs) ∧
      evs =
        [Event.sendto_one Numeric.ERR_PASSWDMISMATCH [env.me_name, c.name],
         Event.ilog LogFile.L_FOPER "FAILED CHALLENGE (%s) by (%s!%s@%s) (%s)"
           c.user.opername [c.name, c.username, c.host, c.sockhost]]
        ++ failed_oper_notice env c "Failed CHALLENGE attempt by %s (%s@%s)" ∧
      (∀ username orighost sockhost name,
        Event.find_oper_conf username orighost sockhost name ∉ evs) ∧
      (∀ oper_p, Event.oper_up oper_p ∉ evs)) ∧
    (cleanup_challenge c).localClient = some { challenge := none, chal_time := 0 } ∧
    (cleanup_challenge c).user.opername = none ∧
    (¬ (env2.oper_secure_only = true ∧ c.IsSecureClient = false) →
      m_challenge env2 (cleanup_challenge c) ('+' :: response2) =
        some (cleanup_challenge c, [])) := by
  have hclean := cleanup_challenge_local c lc hlocal
  have hcl : (cleanup_challenge c).localClient = some { challenge := none, chal_time := 0 } := by
    rw [hclean]
  refine ⟨?_, hcl, by rw [hclean], ?_⟩
  · rw [m_challenge_plus env c response hgate hoper]
    refine ⟨_, response_mismatched env c lc expected response hlocal hpending hfresh hne, rfl,
      ?_, ?_⟩
    · intro username orighost sockhost name
      simp [find_oper_conf_not_mem_notice]
    · intro oper_p
      simp [oper_up_not_mem_notice]
  · intro hgate2
    have hg : ¬ (env2.oper_secure_only = true ∧ (cleanup_challenge c).IsSecureClient = false) := by
      rw [hclean]; exact hgate2
    have ho : (cleanup_challenge c).IsOper = false := by rw [hclean]; exact hoper
    rw [m_challenge_plus env2 (cleanup_challenge c) response2 hg ho]
    exact response_not_expecting env2 _ _ response2 hcl rfl

/-- C6 at a concrete input: `pendingClient` (expected `QUJD`) answers `QUJ`, a
proper beginning of the expected response. -/
theorem C6_mismatched_witness :
    ∃ evs, m_challenge exampleEnv pendingClient ('+' :: "QUJ".toList) =
        some (cleanup_challenge pendingClient, evs) ∧
      evs =
        [Event.sendto_one Numeric.ERR_PASSWDMISMATCH ["irc.example".toList, "al".toList],
         Event.ilog LogFile.L_FOPER "FAILED CHALLENGE (%s) by (%s!%s@%s) (%s)"
           (some "alice".toList) ["al".toList, "u".toList, "h".toList, "10.0.0.1".toList]]
        ++ failed_oper_notice exampleEnv pendingClient
             "Failed CHALLENGE attempt by %s (%s@%s)" ∧
      (∀ username orighost sockhost name,
        Event.find_oper_conf username orighost sockhost name ∉ evs) ∧
      (∀ oper_p, Event.oper_up oper_p ∉ evs) :=
  (C6_mismatched exampleEnv exampleEnv pendingClient
    { challenge := some "QUJD".toList, chal_time := 1000 } "QUJD".toList "QUJ".toList
    "QUJD".toList rfl (by decide) rfl rfl (by decide) (by decide)).1

set_option maxRecDepth 8000 in
/-- C7, as stated, fails: `exampleClient` is issued a challenge for `alice`
(expected response `YM`), then a second one (expected response `YK`), both at
time `1000`; the first expected response `+YM` sent at time `2000` is answered
by the `EXPIRED CHALLENGE` path, which is neither the mismatch path
(`FAILED CHALLENGE`) nor the silent return of a client with nothing pending. -/
theorem C7_counterexample :
    (m_challenge exampleEnv exampleClient "alice".toList).map Prod.fst = some issuedOnce ∧
    (m_challenge secondEnv issuedOnce "alice".toList).map Prod.fst = some issuedTwice ∧
    m_challenge { secondEnv with rb_current_time := 2000 } issuedTwice ('+' :: "YM".toList) =
      some (cleanup_challenge issuedTwice,
        [Event.sendto_one Numeric.ERR_PASSWDMISMATCH ["irc.example".toList, "al".toList],
         Event.ilog LogFile.L_FOPER "EXPIRED CHALLENGE (%s) by (%s!%s@%s) (%s)"
           (some "alice".toList) ["al".toList, "u".toList, "h".toList, "10.0.0.1".toList]]) := by
  decide

/-- C7 (amended): two issue commands of a local, non-operator principal that
both pass the checks and generate (`IssuePasses`, which reads connection
attributes only), with no response in between, both return; after the second
the record holds the second expected response, the second clock reading and
the name of the second credential, and the second command runs exactly as it
would have without the first. A later `+resp1` command with the first expected
response, when that differs from the second, never calls `oper_up` and clears the
record: it takes the mismatch path within 180 seconds of the second issue and
the expiry path after that. -/
theorem C7_supersession (env1 env2 env3 : Env) (c : Client) (lc : LocalClient)
    (name1 name2 : CStr) (oper1 oper2 : oper_conf)
    (text1 resp1 text2 resp2 : CStr) (gev1 gev2 : List Event)
    (hlocal : c.localClient = some lc)
    (hgate1 : ¬ (env1.oper_secure_only = true ∧ c.IsSecureClient = false))
    (hgate2 : ¬ (env2.oper_secure_only = true ∧ c.IsSecureClient = false))
    (hoper : c.IsOper = false)
    (hname1 : name1.head? ≠ some '+')
    (hname2 : name2.head? ≠ some '+')
    (hW1 : 2 ≤ CHALLENGE_WIDTH env1)
    (hW2 : 2 ≤ CHALLENGE_WIDTH env2)
    (hpass1 : IssuePasses env1 c name1 oper1 text1 resp1 gev1)
    (hpass2 : IssuePasses env2 c name2 oper2 text2 resp2 gev2) :
    ∃ (c1 c2 : Client) (ev1 ev2 : List Event),
      m_challenge env1 c name1 = some (c1, ev1) ∧
      c1 = { c with
             localClient := some { challenge := some resp1, chal_time := env1.rb_current_time }
             user := { opername := some oper1.name } } ∧
      m_challenge env2 c1 name2 = some (c2, ev2) ∧
      c2 = { c with
             localClient := some { challenge := some resp2, chal_time := env2.rb_current_time }
             user := { opername := some oper2.name } } ∧
      m_challenge env2 c1 name2 = m_challenge env2 c name2 ∧
      (resp1 ≠ resp2 →
        ¬ (env3.oper_secure_only = true ∧ c.IsSecureClient = false) →
        (∃ ev3, m_challenge env3 c2 ('+' :: resp1) = some (cleanup_challenge c2, ev3) ∧
          (∀ o, Event.oper_up o ∉ ev3)) ∧
        (env3.rb_current_time - env2.rb_current_time ≤ 180 →
          m_challenge env3 c2 ('+' :: resp1) =
            some (cleanup_challenge c2,
              [Event.sendto_one Numeric.ERR_PASSWDMISMATCH [env3.me_name, c.name],
               Event.ilog LogFile.L_FOPER "FAILED CHALLENGE (%s) by (%s!%s@%s) (%s)"
                 (some oper2.name) [c.name, c.username, c.host, c.sockhost]]
              ++ failed_oper_notice env3 c "Failed CHALLENGE attempt by %s (%s@%s)")) ∧
        (env3.rb_current_time - env2.rb_current_time > 180 →
          m_challenge env3 c2 ('+' :: resp1) =
            some (cleanup_challenge c2,
              [Event.sendto_one Numeric.ERR_PASSWDMISMATCH [env3.me_name, c.name],
               Event.ilog LogFile.L_FOPER "EXPIRED CHALLENGE (%s) by (%s!%s@%s) (%s)"
                 (some oper2.name) [c.name, c.username, c.host, c.sockhost]]
              ++ failed_oper_notice env3 c "Expired CHALLENGE attempt by %s (%s@%s)"))) := by
  obtain ⟨chunks1, -, hrun1⟩ :=
    m_challenge_issue_success env1 c lc name1 oper1 text1 resp1 gev1 hlocal hW1 hpass1
  obtain ⟨chunks2, -, hrun2⟩ :=
    m_challenge_issue_success env2 c lc name2 oper2 text2 resp2 gev2 hlocal hW2 hpass2
  have hclean := cleanup_challenge_local c lc hlocal
  have hsame : m_challenge_issue env2
      { c with
        localClient := some { challenge := some resp1, chal_time := env1.rb_current_time }
        user := { opername := some oper1.name } } name2 = m_challenge_issue env2 c name2 := by
    rw [← m_challenge_issue_cleanup env2 c name2, ← m_challenge_issue_cleanup env2 _ name2,
      hclean]
    rfl
  have hissue2 := m_challenge_name env2
      { c with
        localClient := some { challenge := some resp1, chal_time := env1.rb_current_time }
        user := { opername := some oper1.name } } name2 hgate2 hoper hname2
  have hplus3 := fun (hgate3 : ¬ (env3.oper_secure_only = true ∧ c.IsSecureClient = false)) =>
    m_challenge_plus env3
      { c with
        localClient := some { challenge := some resp2, chal_time := env2.rb_current_time }
        user := { opername := some oper2.name } } resp1 hgate3 hoper
  have h1 := hrun1
  rw [← m_challenge_name env1 c name1 hgate1 hoper hname1] at h1
  have h2 := hrun2
  rw [← hsame, ← hissue2] at h2
  have h3 : m_challenge env2
      { c with
        localClient := some { challenge := some resp1, chal_time := env1.rb_current_time }
        user := { opername := some oper1.name } } name2 = m_challenge env2 c name2 := by
    rw [hissue2, hsame, m_challenge_name env2 c name2 hgate2 hoper hname2]
  refine ⟨_, _, _, _, h1, rfl, h2, rfl, h3, ?_⟩
  intro hne hgate3
  have hmis := response_mismatched env3
    { c with
      localClient := some { challenge := some resp2, chal_time := env2.rb_current_time }
      user := { opername := some oper2.name } } _ resp2 resp1 rfl rfl
  have hexp := response_expired env3
    { c with
      localClient := some { challenge := some resp2, chal_time := env2.rb_current_time }
      user := { opername := some oper2.name } } _ resp2 resp1 rfl rfl
  rw [hplus3 hgate3]
  refine ⟨?_, fun hfresh => hmis hfresh hne, fun hlate => hexp hlate⟩
  by_cases hlate : env3.rb_current_time - env2.rb_current_time > 180
  · exact ⟨_, hexp hlate, fun o => by simp [failed_oper_notice]⟩
  · exact ⟨_, hmis (show env3.rb_current_time - env2.rb_current_time ≤ 180 by omega) hne,
      fun o => by simp [failed_oper_notice]⟩

set_option maxRecDepth 8000 in
/-- C7 (amended) at a concrete input: `exampleClient` asks for `alice` on
`exampleEnv`, again on `secondEnv`, and then sends the first expected response. -/
theorem C7_supersession_witness :
    ∃ (c1 c2 : Client) (ev1 ev2 : List Event),
      m_challenge exampleEnv exampleClient "alice".toList = some (c1, ev1) ∧
      c1 = issuedOnce ∧
      m_challenge secondEnv c1 "alice".toList = some (c2, ev2) ∧
      c2 = issuedTwice ∧
      m_challenge secondEnv c1 "alice".toList = m_challenge secondEnv exampleClient "alice".toList ∧
      ("YM".toList ≠ "YK".toList →
        ¬ (exampleEnv.oper_secure_only = true ∧ exampleClient.IsSecureClient = false) →
        (∃ ev3, m_challenge exampleEnv c2 ('+' :: "YM".toList) =
            some (cleanup_challenge c2, ev3) ∧
          (∀ o, Event.oper_up o ∉ ev3)) ∧
        (exampleEnv.rb_current_time - secondEnv.rb_current_time ≤ 180 →
          m_challenge exampleEnv c2 ('+' :: "YM".toList) =
            some (cleanup_challenge c2,
              [Event.sendto_one Numeric.ERR_PASSWDMISMATCH
                 [exampleEnv.me_name, exampleClient.name],
               Event.ilog LogFile.L_FOPER "FAILED CHALLENGE (%s) by (%s!%s@%s) (%s)"
                 (some aliceConf.name)
                 [exampleClient.name, exampleClient.username, exampleClient.host,
                  exampleClient.sockhost]]
              ++ failed_oper_notice exampleEnv exampleClient
                   "Failed CHALLENGE attempt by %s (%s@%s)")) ∧
        (exampleEnv.rb_current_time - secondEnv.rb_current_time > 180 →
          m_challenge exampleEnv c2 ('+' :: "YM".toList) =
            some (cleanup_challenge c2,
              [Event.sendto_one Numeric.ERR_PASSWDMISMATCH
                 [exampleEnv.me_name, exampleClient.name],
               Event.ilog LogFile.L_FOPER "EXPIRED CHALLENGE (%s) by (%s!%s@%s) (%s)"
                 (some aliceConf.name)
                 [exampleClient.name, exampleClient.username, exampleClient.host,
                  exampleClient.sockhost]]
              ++ failed_oper_notice exampleEnv exampleClient
                   "Expired CHALLENGE attempt by %s (%s@%s)"))) :=
  C7_supersession exampleEnv secondEnv exampleEnv exampleClient
    { challenge := none, chal_time := 0 } "alice".toList "alice".toList aliceConf aliceConf
    "DHH".toList "YM".toList "DII".toList "YK".toList
    [Event.generate_challenge (some { material := [3] })]
    [Event.generate_challenge (some { material := [3] })]
    rfl (by decide) (by decide) rfl (by decide) (by decide) (by decide) (by decide)
    (by decide) (by decide)

/-- C8: a `+response` command of a local principal past the gates that has no
stored expected response does nothing: the client is unchanged and no event
happens (no reply, hence no `ERR_PASSWDMISMATCH`; no lookup; no `oper_up`),
whereas with a response pending a wrong text is answered with
`ERR_PASSWDMISMATCH`. -/
theorem C8_not_expecting (env : Env) (c : Client) (lc : LocalClient) (response : CStr)
    (hlocal : c.localClient = some lc)
    (hgate : ¬ (env.oper_secure_only = true ∧ c.IsSecureClient = false))
    (hoper : c.IsOper = false)
    (hnone : lc.challenge = none) :
    m_challenge env c ('+' :: response) = some (c, []) ∧
    (∀ expected, expected ≠ response →
      ∃ c1 evs,
        m_challenge env
          { c with localClient := some { challenge := some expected
                                         chal_time := env.rb_current_time } }
          ('+' :: response) = some (c1, evs) ∧
        Event.sendto_one Numeric.ERR_PASSWDMISMATCH [env.me_name, c.name] ∈ evs) := by
  constructor
  · rw [m_challenge_plus env c response hgate hoper]
    exact response_not_expecting env c lc response hlocal hnone
  · intro expected hne
    have hplus := m_challenge_plus env
      { c with localClient := some { challenge := some expected
                                     chal_time := env.rb_current_time } }
      response hgate hoper
    rw [hplus]
    exact ⟨_, _, response_mismatched env _ _ expected response rfl rfl (by simp)
      (fun h => hne h.symm), by simp⟩

/-- C8 at a concrete input: `exampleClient`, with nothing pending, sends `+QUJD`. -/
theorem C8_not_expecting_witness :
    m_challenge exampleEnv exampleClient ('+' :: "QUJD".toList) = some (exampleClient, []) :=
  (C8_not_expecting exampleEnv exampleClient { challenge := none, chal_time := 0 }
    "QUJD".toList rfl (by decide) rfl rfl).1

/-- C9: an issue command of a local, non-operator principal past the
secure-connection gate is rejected when the lookup for the requested name returns
nothing, or returns a credential that has neither an RSA nor an X25519 key, or
that needs a secure connection the client lacks, or that has a fingerprint while
the client has none or one that `rb_strcasecmp` tells apart: the handler
returns, the client is left as `cleanup_challenge` makes it (nothing stored), no
generator is called and no `sendto_one` line (challenge text, end marker) is sent.
And when the client's fingerprint equals the credential's after lower-casing and
the other two checks pass, the command reaches the generator (lines 268-298). -/
theorem C9_not_authorized (env : Env) (c : Client) (lc : LocalClient) (parv1 : CStr)
    (hlocal : c.localClient = some lc)
    (hgate : ¬ (env.oper_secure_only = true ∧ c.IsSecureClient = false))
    (hoper : c.IsOper = false)
    (hname : parv1.head? ≠ some '+') :
    ((env.find_oper_conf c.username c.orighost c.sockhost (some parv1) = none ∨
      ∃ oper_p, env.find_oper_conf c.username c.orighost c.sockhost (some parv1) = some oper_p ∧
        ((oper_p.rsa_pubkey = none ∧ oper_p.x25519_pubkey = none) ∨
         (oper_p.NeedSSL = true ∧ c.IsSecureClient = false) ∨
         (∃ fp, oper_p.certfp = some fp ∧
           (c.certfp = none ∨ ∃ cfp, c.certfp = some cfp ∧ rb_strcasecmp cfp fp ≠ 0)))) →
      ∃ evs, m_challenge env c parv1 = some (cleanup_challenge c, evs) ∧
        (cleanup_challenge c).localClient = some { challenge := none, chal_time := 0 } ∧
        (cleanup_challenge c).user.opername = none ∧
        (∀ token id md pub, Event.generate_challenge_gen token id md pub ∉ evs) ∧
        (∀ rsa, Event.generate_challenge rsa ∉ evs) ∧
        (∀ numeric args, Event.sendto_one numeric args ∉ evs)) ∧
    (∀ oper_p fp cfp,
      env.find_oper_conf c.username c.orighost c.sockhost (some parv1) = some oper_p →
      ¬ (oper_p.rsa_pubkey = none ∧ oper_p.x25519_pubkey = none) →
      ¬ (oper_p.NeedSSL = true ∧ c.IsSecureClient = false) →
      oper_p.certfp = some fp → c.certfp = some cfp →
      cfp.map Char.toLower = fp.map Char.toLower →
      m_challenge env c parv1 =
        (m_challenge_generate env (cleanup_challenge c) oper_p).map
          (fun r => (r.1,
            Event.find_oper_conf c.username c.orighost c.sockhost (some parv1) :: r.2))) := by
  have hclean := cleanup_challenge_local c lc hlocal
  rw [m_challenge_name env c parv1 hgate hoper hname]
  have hcl : (cleanup_challenge c).localClient = some { challenge := none, chal_time := 0 } := by
    rw [hclean]
  have hop : (cleanup_challenge c).user.opername = none := by rw [hclean]
  constructor
  · intro hrej
    rcases hrej with hfind | ⟨o, hfind, hcond⟩
    · refine ⟨_, issue_no_conf env c parv1 hfind, hcl, hop, ?_, ?_, ?_⟩
      · intro token id md pub; simp [failed_oper_notice]
      · intro rsa; simp [failed_oper_notice]
      · intro numeric args; simp [failed_oper_notice]
    · by_cases hkey : o.rsa_pubkey = none ∧ o.x25519_pubkey = none
      · refine ⟨_, issue_no_key env c parv1 o hfind hkey, hcl, hop, ?_, ?_, ?_⟩
        · intro token id md pub; simp
        · intro rsa; simp
        · intro numeric args; simp
      · by_cases hssl : o.NeedSSL = true ∧ c.IsSecureClient = false
        · refine ⟨_, issue_need_ssl env c parv1 o hfind hkey hssl, hcl, hop, ?_, ?_, ?_⟩
          · intro token id md pub; simp [failed_oper_notice]
          · intro rsa; simp [failed_oper_notice]
          · intro numeric args; simp [failed_oper_notice]
        · have hfp : certfp_mismatch c o = true := by
            rcases hcond with h | h | ⟨fp, hfp, hc⟩
            · exact absurd h hkey
            · exact absurd h hssl
            · rcases hc with hc | ⟨cfp, hc, hcmp⟩
              · simp [certfp_mismatch, hfp, hc]
              · simp [certfp_mismatch, hfp, hc, hcmp]
          refine ⟨_, issue_certfp env c parv1 o hfind hkey hssl hfp, hcl, hop, ?_, ?_, ?_⟩
          · intro token id md pub; simp [failed_oper_notice]
          · intro rsa; simp [failed_oper_notice]
          · intro numeric args; simp [failed_oper_notice]
  · intro o fp cfp hfind hkey hssl hfp hc hlow
    have hzero := rb_strcasecmp_of_lower_eq cfp fp hlow
    have hmis : certfp_mismatch c o = false := by
      simp [certfp_mismatch, hfp, hc, hzero]
    exact issue_reaches_generator env c parv1 o hfind hkey hssl hmis

/-- C9 at concrete inputs: `exampleClient` asks for the unknown name `bob`; and
`fpClient` (fingerprint `ab12`) asks for `alice`, registered with `AB12`. -/
theorem C9_not_authorized_witness :
    (∃ evs, m_challenge exampleEnv exampleClient "bob".toList =
        some (cleanup_challenge exampleClient, evs) ∧
      (cleanup_challenge exampleClient).localClient = some { challenge := none, chal_time := 0 } ∧
      (cleanup_challenge exampleClient).user.opername = none ∧
      (∀ token id md pub, Event.generate_challenge_gen token id md pub ∉ evs) ∧
      (∀ rsa, Event.generate_challenge rsa ∉ evs) ∧
      (∀ numeric args, Event.sendto_one numeric args ∉ evs)) ∧
    m_challenge fpEnv fpClient "alice".toList =
      (m_challenge_generate fpEnv (cleanup_challenge fpClient) fpConf).map
        (fun r => (r.1,
          Event.find_oper_conf fpClient.username fpClient.orighost fpClient.sockhost
            (some "alice".toList) :: r.2)) :=
  ⟨(C9_not_authorized exampleEnv exampleClient { challenge := none, chal_time := 0 }
      "bob".toList rfl (by decide) rfl (by decide)).1 (Or.inl (by decide)),
   (C9_not_authorized fpEnv fpClient { challenge := none, chal_time := 0 }
      "alice".toList rfl (by decide) rfl (by decide)).2 fpConf "AB12".toList "ab12".toList
      (by decide) (by decide) (by decide) rfl rfl (by decide)⟩

/-- C10: when an issue command of a local, non-operator principal past the
secure-connection gate passes the checks and its generator call succeeds with
challenge text `text` and expected response `resp` (`IssuePasses`), and the
line width is at least 2, then the handler returns; what it sends to the client
is one `RPL_RSACHALLENGE2` line per chunk (server name, nick, chunk), the chunks
put together in order being `text`, and then the end marker, nothing else;
afterwards the record holds `resp`, the clock reading of that moment and the
name of the resolved credential. A `+resp` command within 180 seconds for which
the lookup of that name returns a credential `oper2` then calls `oper_up` with
`oper2`. -/
theorem C10_issue_records (env env2 : Env) (c : Client) (lc : LocalClient) (parv1 : CStr)
    (oper_p oper2 : oper_conf) (text resp : CStr) (gev : List Event)
    (hlocal : c.localClient = some lc)
    (hgate : ¬ (env.oper_secure_only = true ∧ c.IsSecureClient = false))
    (hoper : c.IsOper = false)
    (hname : parv1.head? ≠ some '+')
    (hW : 2 ≤ CHALLENGE_WIDTH env)
    (hpass : IssuePasses env c parv1 oper_p text resp gev) :
    ∃ (c1 : Client) (chunks : List CStr) (evs : List Event),
      m_challenge env c parv1 = some (c1, evs) ∧
      evs =
        Event.find_oper_conf c.username c.orighost c.sockhost (some parv1) ::
          (gev ++
            chunks.map (fun chunk =>
              Event.sendto_one Numeric.RPL_RSACHALLENGE2 [env.me_name, c.name, chunk]) ++
            [Event.sendto_one Numeric.RPL_ENDOFRSACHALLENGE2 [env.me_name, c.name]]) ∧
      evs.filter Event.toPeer =
        chunks.map (fun chunk =>
          Event.sendto_one Numeric.RPL_RSACHALLENGE2 [env.me_name, c.name, chunk]) ++
        [Event.sendto_one Numeric.RPL_ENDOFRSACHALLENGE2 [env.me_name, c.name]] ∧
      chunks.flatten = text ∧
      c1 = { c with
             localClient := some { challenge := some resp, chal_time := env.rb_current_time }
             user := { opername := some oper_p.name } } ∧
      (¬ (env2.oper_secure_only = true ∧ c.IsSecureClient = false) →
        env2.rb_current_time - env.rb_current_time ≤ 180 →
        env2.find_oper_conf c.username c.orighost c.sockhost (some oper_p.name) = some oper2 →
        ∃ log, m_challenge env2 c1 ('+' :: resp) =
          some (env2.oper_up (cleanup_challenge c1) oper2,
            [Event.find_oper_conf c.username c.orighost c.sockhost (some oper_p.name),
             Event.oper_up oper2,
             Event.ilog LogFile.L_OPERED "OPER %s by %s!%s@%s (%s)"
               (env2.oper_up (cleanup_challenge c1) oper2).user.opername log])) := by
  obtain ⟨chunks, hflat, hrun⟩ :=
    m_challenge_issue_success env c lc parv1 oper_p text resp gev hlocal hW hpass
  rw [← m_challenge_name env c parv1 hgate hoper hname] at hrun
  have hgev : gev.filter Event.toPeer = [] := by
    have h := (challenge_generated_events env oper_p).1
    rw [hpass.2.2.2.2] at h
    exact h
  have hlines : (chunks.map (fun chunk =>
      Event.sendto_one Numeric.RPL_RSACHALLENGE2 [env.me_name, c.name, chunk])).filter
        Event.toPeer =
      chunks.map (fun chunk =>
        Event.sendto_one Numeric.RPL_RSACHALLENGE2 [env.me_name, c.name, chunk]) := by
    rw [List.filter_eq_self]
    intro e he
    obtain ⟨chunk, -, hch⟩ := List.mem_map.mp he
    rw [← hch]
    rfl
  have hl : (Event.find_oper_conf c.username c.orighost c.sockhost (some parv1)).toPeer
      = false := rfl
  have hm : (Event.sendto_one Numeric.RPL_ENDOFRSACHALLENGE2 [env.me_name, c.name]).toPeer
      = true := rfl
  refine ⟨_, chunks, _, hrun, rfl, ?_, hflat, rfl, ?_⟩
  · show (Event.find_oper_conf c.username c.orighost c.sockhost (some parv1) ::
        (gev ++
          chunks.map (fun chunk =>
            Event.sendto_one Numeric.RPL_RSACHALLENGE2 [env.me_name, c.name, chunk]) ++
          [Event.sendto_one Numeric.RPL_ENDOFRSACHALLENGE2 [env.me_name, c.name]])).filter
        Event.toPeer = _
    rw [List.filter_cons, hl, List.filter_append, List.filter_append, hgev, hlines]
    simp [List.filter_cons, hm]
  · intro hgate2 hfresh hfind2
    have hplus := m_challenge_plus env2
      { c with
        localClient := some { challenge := some resp, chal_time := env.rb_current_time }
        user := { opername := some oper_p.name } }
      resp hgate2 hoper
    rw [hplus]
    exact ⟨_, response_granted env2 _ _ resp oper2 rfl rfl hfresh hfind2⟩

set_option maxRecDepth 8000 in
/-- C10 at a concrete input: `exampleClient` asks for `alice` on `exampleEnv`;
the challenge text `DHH` fits one line, and the record is that of `issuedOnce`. -/
theorem C10_issue_records_witness :
    m_challenge exampleEnv exampleClient "alice".toList =
      some (issuedOnce,
        [Event.find_oper_conf "u".toList "h".toList "10.0.0.1".toList (some "alice".toList),
         Event.generate_challenge (some { material := [3] }),
         Event.sendto_one Numeric.RPL_RSACHALLENGE2
           ["irc.example".toList, "al".toList, "DHH".toList],
         Event.sendto_one Numeric.RPL_ENDOFRSACHALLENGE2
           ["irc.example".toList, "al".toList]]) ∧
    ∃ (c1 : Client) (chunks : List CStr) (evs : List Event),
      m_challenge exampleEnv exampleClient "alice".toList = some (c1, evs) ∧
      evs =
        Event.find_oper_conf exampleClient.username exampleClient.orighost
            exampleClient.sockhost (some "alice".toList) ::
          ([Event.generate_challenge (some { material := [3] })] ++
            chunks.map (fun chunk =>
              Event.sendto_one Numeric.RPL_RSACHALLENGE2
                [exampleEnv.me_name, exampleClient.name, chunk]) ++
            [Event.sendto_one Numeric.RPL_ENDOFRSACHALLENGE2
               [exampleEnv.me_name, exampleClient.name]]) ∧
      evs.filter Event.toPeer =
        chunks.map (fun chunk =>
          Event.sendto_one Numeric.RPL_RSACHALLENGE2
            [exampleEnv.me_name, exampleClient.name, chunk]) ++
        [Event.sendto_one Numeric.RPL_ENDOFRSACHALLENGE2
           [exampleEnv.me_name, exampleClient.name]] ∧
      chunks.flatten = "DHH".toList ∧
      c1 = { exampleClient with
             localClient :=
               some { challenge := some "YM".toList, chal_time := exampleEnv.rb_current_time }
             user := { opername := some aliceConf.name } } ∧
      (¬ (exampleEnv.oper_secure_only = true ∧ exampleClient.IsSecureClient = false) →
        exampleEnv.rb_current_time - exampleEnv.rb_current_time ≤ 180 →
        exampleEnv.find_oper_conf exampleClient.username exampleClient.orighost
          exampleClient.sockhost (some aliceConf.name) = some aliceConf →
        ∃ log, m_challenge exampleEnv c1 ('+' :: "YM".toList) =
          some (exampleEnv.oper_up (cleanup_challenge c1) aliceConf,
            [Event.find_oper_conf exampleClient.username exampleClient.orighost
               exampleClient.sockhost (some aliceConf.name),
             Event.oper_up aliceConf,
             Event.ilog LogFile.L_OPERED "OPER %s by %s!%s@%s (%s)"
               (exampleEnv.oper_up (cleanup_challenge c1) aliceConf).user.opername log])) :=
  ⟨by decide,
   C10_issue_records exampleEnv exampleEnv exampleClient { challenge := none, chal_time := 0 }
    "alice".toList aliceConf aliceConf "DHH".toList "YM".toList
    [Event.generate_challenge (some { material := [3] })]
    rfl (by decide) rfl (by decide) (by decide) (by decide)⟩

/-- C11: (a) `generate_challenge` fails, leaving both out-parameters `NULL`, when
there is no key, when the random source fails and when the encryption fails;
(b) `generate_challenge_gen` fails, leaving both out-parameters `NULL`, when any
of its OpenSSL calls (context, key generation, derivation, raw public key,
HMAC) fails; (c) when the generator call of an issue command that passed the
checks fails, the handler returns, no expected response is stored (the client is
as `cleanup_challenge` left it), the only thing sent to the client is the notice
`Failed to generate challenge.` (no challenge line, no end marker), and a
following `+response` command past the gates does nothing. -/
theorem C11_generator_failure (env env2 : Env) (c : Client) (lc : LocalClient)
    (parv1 response2 : CStr) (oper_p : oper_conf)
    (hlocal : c.localClient = some lc)
    (hgate : ¬ (env.oper_secure_only = true ∧ c.IsSecureClient = false))
    (hoper : c.IsOper = false)
    (hname : parv1.head? ≠ some '+')
    (hfind : env.find_oper_conf c.username c.orighost c.sockhost (some parv1) = some oper_p)
    (hkey : ¬ (oper_p.rsa_pubkey = none ∧ oper_p.x25519_pubkey = none))
    (hssl : ¬ (oper_p.NeedSSL = true ∧ c.IsSecureClient = false))
    (hfp : certfp_mismatch c oper_p = false) :
    (∀ rsa : Option RSA,
      (rsa = none ∨ env.rb_get_random CHALLENGE_SECRET_LENGTH = none ∨
        ∃ key secret, rsa = some key ∧
          env.rb_get_random CHALLENGE_SECRET_LENGTH = some secret ∧
          env.RSA_public_encrypt key secret = none) →
      (generate_challenge env none none rsa).success = false ∧
      (generate_challenge env none none rsa).r_challenge = none ∧
      (generate_challenge env none none rsa).r_response = none) ∧
    (∀ (token : CStr) (id : Nat) (md : EVP_MD) (pub : EVP_PKEY),
      (env.EVP_PKEY_CTX_new_id id = false ∨ env.EVP_PKEY_keygen_init id = false ∨
        env.EVP_PKEY_keygen id = none ∨
        ∃ pkey, env.EVP_PKEY_keygen id = some pkey ∧
          (env.EVP_PKEY_CTX_new pkey = false ∨ env.EVP_PKEY_derive_init pkey = false ∨
           env.EVP_PKEY_derive_set_peer pkey pub = false ∨
           env.EVP_PKEY_derive_len pkey pub = none ∨ env.EVP_PKEY_derive pkey pub = none ∨
           env.EVP_PKEY_get_raw_public_key_len pkey = none ∨
           env.EVP_PKEY_get_raw_public_key pkey = none ∨
           ∃ shared, env.EVP_PKEY_derive pkey pub = some shared ∧
             env.HMAC md shared token = none)) →
      (generate_challenge_gen env token id md pub none none).success = false ∧
      (generate_challenge_gen env token id md pub none none).r_challenge = none ∧
      (generate_challenge_gen env token id md pub none none).r_response = none) ∧
    ((challenge_generated env oper_p none none).success = false →
      (challenge_generated env oper_p none none).r_challenge = none ∧
      (challenge_generated env oper_p none none).r_response = none ∧
      ∃ evs, m_challenge env c parv1 = some (cleanup_challenge c, evs) ∧
        (cleanup_challenge c).localClient = some { challenge := none, chal_time := 0 } ∧
        (cleanup_challenge c).user.opername = none ∧
        evs.filter Event.toPeer = [Event.sendto_one_notice ":Failed to generate challenge."] ∧
        (∀ numeric args, Event.sendto_one numeric args ∉ evs) ∧
        (¬ (env2.oper_secure_only = true ∧ c.IsSecureClient = false) →
          m_challenge env2 (cleanup_challenge c) ('+' :: response2) =
            some (cleanup_challenge c, []))) := by
  refine ⟨?_, ?_, ?_⟩
  · intro rsa hfail
    rcases generate_challenge_cases env none none rsa with
      ⟨-, h⟩ | ⟨key, -, -, h⟩ | ⟨key, secret, -, -, -, h⟩ | ⟨key, secret, tmp, hk, hr, he, h⟩
    · rw [h]; exact ⟨rfl, rfl, rfl⟩
    · rw [h]; exact ⟨rfl, rfl, rfl⟩
    · rw [h]; exact ⟨rfl, rfl, rfl⟩
    · exfalso
      rcases hfail with h1 | h1 | ⟨key2, secret2, hk2, hr2, he2⟩
      · rw [h1] at hk; cases hk
      · rw [h1] at hr; cases hr
      · rw [hk2] at hk; cases hk
        rw [hr2] at hr; cases hr
        rw [he2] at he; cases he
  · intro token id md pub hfail
    rcases generate_challenge_gen_cases env token id md pub none none with
      h | ⟨pkey, shared, epub, d, h1, h2, h3, h4, h5, h6, h7, h8, h9, h10, h11, -⟩
    · rw [h]; exact ⟨rfl, rfl, rfl⟩
    · exfalso
      rcases hfail with e | e | e | ⟨pkey2, e3, e⟩
      · rw [e] at h1; cases h1
      · rw [e] at h2; cases h2
      · rw [e] at h3; cases h3
      · rw [e3] at h3; cases h3
        rcases e with e | e | e | e | e | e | e | ⟨shared2, e8, e⟩
        · rw [e] at h4; cases h4
        · rw [e] at h5; cases h5
        · rw [e] at h6; cases h6
        · rw [e] at h7; cases h7
        · rw [e] at h8; cases h8
        · rw [e] at h9; cases h9
        · rw [e] at h10; cases h10
        · rw [e8] at h8; cases h8
          rw [e] at h11; cases h11
  · intro hgen
    have hclean := cleanup_challenge_local c lc hlocal
    have hcl : (cleanup_challenge c).localClient
        = some { challenge := none, chal_time := 0 } := by rw [hclean]
    obtain ⟨hch, hresp⟩ := (challenge_generated_cases env oper_p).2.1 hgen
    obtain ⟨hpeer, -⟩ := challenge_generated_events env oper_p
    obtain ⟨⟨rest, hev, hrest⟩, -⟩ := challenge_generated_cases env oper_p
    have hrun := issue_generator_failure env c lc parv1 oper_p hlocal hfind hkey hssl hfp hgen
    rw [← m_challenge_name env c parv1 hgate hoper hname] at hrun
    have hn : (Event.sendto_one_notice ":Failed to generate challenge.").toPeer = true := rfl
    have hl : (Event.find_oper_conf c.username c.orighost c.sockhost (some parv1)).toPeer
        = false := rfl
    refine ⟨hch, hresp, _, hrun, hcl, by rw [hclean], ?_, ?_, ?_⟩
    · simp [List.filter_cons, List.filter_append, hpeer, hn, hl]
    · intro numeric args
      rw [hev]
      have hcall : Event.sendto_one numeric args ≠ generator_call oper_p := by
        unfold generator_call
        split <;> simp
      rcases hrest with h | h <;> subst h <;> simp [hcall]
    · intro hgate2
      have hg : ¬ (env2.oper_secure_only = true ∧
          (cleanup_challenge c).IsSecureClient = false) := by
        rw [hclean]; exact hgate2
      have ho : (cleanup_challenge c).IsOper = false := by rw [hclean]; exact hoper
      rw [m_challenge_plus env2 (cleanup_challenge c) response2 hg ho]
      exact response_not_expecting env2 _ _ response2 hcl rfl

/-- C11 at a concrete input: `exampleClient` asks for `alice` on `noRandomEnv`,
whose random source fails. -/
theorem C11_generator_failure_witness :
    ∃ evs, m_challenge noRandomEnv exampleClient "alice".toList =
        some (cleanup_challenge exampleClient, evs) ∧
      (cleanup_challenge exampleClient).localClient =
        some { challenge := none, chal_time := 0 } ∧
      (cleanup_challenge exampleClient).user.opername = none ∧
      evs.filter Event.toPeer = [Event.sendto_one_notice ":Failed to generate challenge."] ∧
      (∀ numeric args, Event.sendto_one numeric args ∉ evs) ∧
      (¬ (exampleEnv.oper_secure_only = true ∧ exampleClient.IsSecureClient = false) →
        m_challenge exampleEnv (cleanup_challenge exampleClient) ('+' :: "YM".toList) =
          some (cleanup_challenge exampleClient, [])) :=
  ((C11_generator_failure noRandomEnv exampleEnv exampleClient
    { challenge := none, chal_time := 0 } "alice".toList "YM".toList aliceConf
    rfl (by decide) rfl (by decide) (by decide) (by decide) (by decide) (by decide)).2.2
    (by decide)).2.2

/-- C12: when the random source, asked for `CHALLENGE_SECRET_LENGTH` = 128 bytes,
returns the secret `s` and the OAEP encryption of `s` under `key` succeeds with
ciphertext `ct`, `generate_challenge` returns true with the challenge text
`base64(ct)` and the expected response `base64(SHA1(s))`. Hence, for a decoder
that undoes the base64 encoding and a decryption that undoes the encryption
under `key`, decrypting the decoded challenge text gives `s`, whose encoded
SHA-1 digest is the expected response. -/
theorem C12_rsa_scheme (env : Env) (key : RSA) (s ct : List Nat)
    (decode : CStr → List Nat) (decrypt : List Nat → List Nat)
    (a b : Option CStr)
    (hrng : env.rb_get_random CHALLENGE_SECRET_LENGTH = some s)
    (henc : env.RSA_public_encrypt key s = some ct)
    (hdecode : ∀ bytes, decode (env.rb_base64_encode bytes) = bytes)
    (hinv : ∀ m c, env.RSA_public_encrypt key m = some c → decrypt c = m) :
    CHALLENGE_SECRET_LENGTH = 128 ∧
    generate_challenge env a b (some key) =
      { success := true
        r_challenge := some (env.rb_base64_encode ct)
        r_response := some (env.rb_base64_encode (env.SHA1 s))
        events := [] } ∧
    ∃ text resp,
      (generate_challenge env a b (some key)).r_challenge = some text ∧
      (generate_challenge env a b (some key)).r_response = some resp ∧
      decrypt (decode text) = s ∧
      env.rb_base64_encode (env.SHA1 s) = resp := by
  have hrun : generate_challenge env a b (some key) =
      { success := true
        r_challenge := some (env.rb_base64_encode ct)
        r_response := some (env.rb_base64_encode (env.SHA1 s))
        events := [] } := by
    simp [generate_challenge, hrng, henc]
  refine ⟨rfl, hrun, env.rb_base64_encode ct, env.rb_base64_encode (env.SHA1 s), ?_, ?_, ?_, rfl⟩
  · rw [hrun]
  · rw [hrun]
  · rw [hdecode]; exact hinv s ct henc

/-- C12 at a concrete input: the key `[3]` on `invertibleEnv`, whose random
source returns 128 sevens. -/
theorem C12_rsa_scheme_witness :
    generate_challenge invertibleEnv none none (some { material := [3] }) =
      { success := true
        r_challenge := some (invertibleEnv.rb_base64_encode ([3] ++ List.replicate 128 7))
        r_response :=
          some (invertibleEnv.rb_base64_encode (invertibleEnv.SHA1 (List.replicate 128 7)))
        events := [] } :=
  (C12_rsa_scheme invertibleEnv { material := [3] } (List.replicate 128 7)
    ([3] ++ List.replicate 128 7) (unaryDecodeFrom 0) (fun c => c.drop 1) none none
    rfl rfl unaryDecodeFrom_encode
    (fun m c h => by
      simp only [invertibleEnv, Option.some.injEq] at h
      rw [← h]
      rfl)).2.1

/-- C13: for a credential whose X25519 key is `pub`, when every OpenSSL call
succeeds, with ephemeral key pair `pkey`, shared secret `shared` derived from
`pkey` and `pub`, raw public key `epub` of `pkey`, and `d` = HMAC-SHA256 with key
`shared` over the token `solanum-challenge v1-x25519-sha256`, the generator call
of `m_challenge` returns true with challenge text `base64(epub)` and expected
response `base64(d)`. Hence, if deriving with the holder's private key and the raw
ephemeral public key always gives what the server derives (commutativity), the
holder's `base64(HMAC-SHA256(DH(their_private, epub), token))` is the expected
response. -/
theorem C13_x25519_scheme (env : Env) (oper_p : oper_conf) (pub pkey : EVP_PKEY)
    (shared epub d their_private : List Nat) (DH : List Nat → List Nat → List Nat)
    (hpub : oper_p.x25519_pubkey = some pub)
    (hctx : env.EVP_PKEY_CTX_new_id EVP_PKEY_X25519 = true)
    (hinit : env.EVP_PKEY_keygen_init EVP_PKEY_X25519 = true)
    (hkeygen : env.EVP_PKEY_keygen EVP_PKEY_X25519 = some pkey)
    (hctx2 : env.EVP_PKEY_CTX_new pkey = true)
    (hdinit : env.EVP_PKEY_derive_init pkey = true)
    (hpeer : env.EVP_PKEY_derive_set_peer pkey pub = true)
    (hdlen : (env.EVP_PKEY_derive_len pkey pub).isSome = true)
    (hderive : env.EVP_PKEY_derive pkey pub = some shared)
    (hrlen : (env.EVP_PKEY_get_raw_public_key_len pkey).isSome = true)
    (hraw : env.EVP_PKEY_get_raw_public_key pkey = some epub)
    (hmac : env.HMAC EVP_MD.sha256 shared "solanum-challenge v1-x25519-sha256".toList = some d)
    (hcomm : ∀ k raw sh, env.EVP_PKEY_get_raw_public_key k = some raw →
      env.EVP_PKEY_derive k pub = some sh → DH their_private raw = sh) :
    generate_challenge_gen env "solanum-challenge v1-x25519-sha256".toList EVP_PKEY_X25519
        EVP_MD.sha256 pub none none =
      { success := true
        r_challenge := some (env.rb_base64_encode epub)
        r_response := some (env.rb_base64_encode d)
        events := [] } ∧
    challenge_generated env oper_p none none =
      { success := true
        r_challenge := some (env.rb_base64_encode epub)
        r_response := some (env.rb_base64_encode d)
        events := [generator_call oper_p] } ∧
    (env.HMAC EVP_MD.sha256 (DH their_private epub)
        "solanum-challenge v1-x25519-sha256".toList).map env.rb_base64_encode =
      (challenge_generated env oper_p none none).r_response := by
  have hgen : generate_challenge_gen env "solanum-challenge v1-x25519-sha256".toList
      EVP_PKEY_X25519 EVP_MD.sha256 pub none none =
      { success := true
        r_challenge := some (env.rb_base64_encode epub)
        r_response := some (env.rb_base64_encode d)
        events := [] } := by
    cases hd : env.EVP_PKEY_derive_len pkey pub with
    | none => rw [hd] at hdlen; cases hdlen
    | some n =>
      cases hr : env.EVP_PKEY_get_raw_public_key_len pkey with
      | none => rw [hr] at hrlen; cases hrlen
      | some m =>
        simp only [generate_challenge_gen, hctx, hinit, hkeygen, hctx2, hdinit, hpeer, hd,
          hderive, hr, hraw, hmac, Bool.true_eq_false, if_false]
  have hcg : challenge_generated env oper_p none none =
      { success := true
        r_challenge := some (env.rb_base64_encode epub)
        r_response := some (env.rb_base64_encode d)
        events := [generator_call oper_p] } := by
    simp only [challenge_generated, generator_call, hpub]
    rw [hgen]
  refine ⟨hgen, hcg, ?_⟩
  rw [hcg, hcomm pkey epub shared hraw hderive, hmac]
  rfl

/-- C13 at a concrete input: `bobConf` (X25519 key `[9]`) on `exampleEnv`, the
holder deriving with the private key `[9]`. -/
theorem C13_x25519_scheme_witness :
    challenge_generated exampleEnv bobConf none none =
      { success := true
        r_challenge := some (exampleEnv.rb_base64_encode [5])
        r_response := some (exampleEnv.rb_base64_encode [5, 9, 34])
        events := [generator_call bobConf] } :=
  (C13_x25519_scheme exampleEnv bobConf { material := [9] } { material := [5] }
    [5, 9] [5] [5, 9, 34] [9] (fun priv raw => raw ++ priv)
    rfl rfl rfl rfl rfl rfl rfl rfl rfl rfl rfl (by decide)
    (fun k raw sh h1 h2 => by
      simp only [exampleEnv, Option.some.injEq] at h1 h2
      rw [← h1, ← h2])).2.1

/-- C14: for a line width `CHALLENGE_WIDTH` of at least 2 and any challenge text,
the fragmenting loop returns, and what it sends is one `RPL_RSACHALLENGE2` line
(server name, nick, chunk) per chunk, where the chunks put together in order
are the text, every chunk has at most `CHALLENGE_WIDTH - 1` characters, and every
chunk but the last has exactly `CHALLENGE_WIDTH - 1`. -/
theorem C14_fragmentation (env : Env) (c : Client) (chal : CStr)
    (hW : 2 ≤ CHALLENGE_WIDTH env) :
    ∃ chunks : List CStr,
      challenge_lines env c (CHALLENGE_WIDTH env) (chal.length + 1) chal =
        some (chunks.map (fun chunk =>
          Event.sendto_one Numeric.RPL_RSACHALLENGE2 [env.me_name, c.name, chunk])) ∧
      chunks.flatten = chal ∧
      (∀ ch ∈ chunks, ch.length ≤ CHALLENGE_WIDTH env - 1) ∧
      (∀ ch ∈ chunks.dropLast, ch.length = CHALLENGE_WIDTH env - 1) := by
  obtain ⟨chunks, hrun, hflat, hle, hfull, -, -⟩ :=
    challenge_lines_chunks env c (CHALLENGE_WIDTH env) hW (chal.length + 1) chal (by omega)
  exact ⟨chunks, hrun, hflat, hle, hfull⟩

/-- C14 at a concrete input: the text `ABCDE` on `narrowEnv`, whose lines carry 2
characters: the lines sent carry `AB`, `CD` and `E`. -/
theorem C14_fragmentation_witness :
    challenge_lines narrowEnv exampleClient (CHALLENGE_WIDTH narrowEnv)
        ("ABCDE".toList.length + 1) "ABCDE".toList =
      some [Event.sendto_one Numeric.RPL_RSACHALLENGE2
              ["irc.example".toList, "al".toList, "AB".toList],
            Event.sendto_one Numeric.RPL_RSACHALLENGE2
              ["irc.example".toList, "al".toList, "CD".toList],
            Event.sendto_one Numeric.RPL_RSACHALLENGE2
              ["irc.example".toList, "al".toList, "E".toList]] ∧
    ∃ chunks : List CStr,
      challenge_lines narrowEnv exampleClient (CHALLENGE_WIDTH narrowEnv)
          ("ABCDE".toList.length + 1) "ABCDE".toList =
        some (chunks.map (fun chunk =>
          Event.sendto_one Numeric.RPL_RSACHALLENGE2
            [narrowEnv.me_name, exampleClient.name, chunk])) ∧
      chunks.flatten = "ABCDE".toList ∧
      (∀ ch ∈ chunks, ch.length ≤ CHALLENGE_WIDTH narrowEnv - 1) ∧
      (∀ ch ∈ chunks.dropLast, ch.length = CHALLENGE_WIDTH narrowEnv - 1) :=
  ⟨by decide, C14_fragmentation narrowEnv exampleClient "ABCDE".toList (by decide)⟩

/-- C15: with a response pending, a `+response` command that is rejected as
expired and one that is rejected as a mismatch (same client, same server name)
send the client the same thing, `ERR_PASSWDMISMATCH` with the server name and
the nick, and nothing else; the log line differs (`EXPIRED CHALLENGE` against
`FAILED CHALLENGE`). -/
theorem C15_same_reply (env1 env2 : Env) (c : Client) (lc : LocalClient)
    (expected response1 response2 : CStr)
    (hlocal : c.localClient = some lc)
    (hgate1 : ¬ (env1.oper_secure_only = true ∧ c.IsSecureClient = false))
    (hgate2 : ¬ (env2.oper_secure_only = true ∧ c.IsSecureClient = false))
    (hoper : c.IsOper = false)
    (hpending : lc.challenge = some expected)
    (hme : env1.me_name = env2.me_name)
    (hlate : env1.rb_current_time - lc.chal_time > 180)
    (hfresh : env2.rb_current_time - lc.chal_time ≤ 180)
    (hne : response2 ≠ expected) :
    ∃ evs1 evs2,
      m_challenge env1 c ('+' :: response1) = some (cleanup_challenge c, evs1) ∧
      m_challenge env2 c ('+' :: response2) = some (cleanup_challenge c, evs2) ∧
      evs1.filter Event.toPeer =
        [Event.sendto_one Numeric.ERR_PASSWDMISMATCH [env1.me_name, c.name]] ∧
      evs2.filter Event.toPeer = evs1.filter Event.toPeer ∧
      Event.ilog LogFile.L_FOPER "EXPIRED CHALLENGE (%s) by (%s!%s@%s) (%s)"
        c.user.opername [c.name, c.username, c.host, c.sockhost] ∈ evs1 ∧
      Event.ilog LogFile.L_FOPER "FAILED CHALLENGE (%s) by (%s!%s@%s) (%s)"
        c.user.opername [c.name, c.username, c.host, c.sockhost] ∈ evs2 := by
  have h1 := response_expired env1 c lc expected response1 hlocal hpending hlate
  rw [← m_challenge_plus env1 c response1 hgate1 hoper] at h1
  have h2 := response_mismatched env2 c lc expected response2 hlocal hpending hfresh hne
  rw [← m_challenge_plus env2 c response2 hgate2 hoper] at h2
  refine ⟨_, _, h1, h2, ?_, ?_, by simp, by simp⟩
  · simp [List.filter_cons, List.filter_append, failed_oper_notice_toPeer, Event.toPeer]
  · simp [List.filter_cons, List.filter_append, failed_oper_notice_toPeer, Event.toPeer, hme]

/-- C15 at a concrete input: `pendingClient` (issued at `1000`) answers correctly
at time `2000`, or wrongly at time `1000`. -/
theorem C15_same_reply_witness :
    ∃ evs1 evs2,
      m_challenge { exampleEnv with rb_current_time := 2000 } pendingClient
          ('+' :: "QUJD".toList) = some (cleanup_challenge pendingClient, evs1) ∧
      m_challenge exampleEnv pendingClient ('+' :: "AAAA".toList) =
        some (cleanup_challenge pendingClient, evs2) ∧
      evs1.filter Event.toPeer =
        [Event.sendto_one Numeric.ERR_PASSWDMISMATCH
           [exampleEnv.me_name, pendingClient.name]] ∧
      evs2.filter Event.toPeer = evs1.filter Event.toPeer ∧
      Event.ilog LogFile.L_FOPER "EXPIRED CHALLENGE (%s) by (%s!%s@%s) (%s)"
        pendingClient.user.opername
        [pendingClient.name, pendingClient.username, pendingClient.host,
         pendingClient.sockhost] ∈ evs1 ∧
      Event.ilog LogFile.L_FOPER "FAILED CHALLENGE (%s) by (%s!%s@%s) (%s)"
        pendingClient.user.opername
        [pendingClient.name, pendingClient.username, pendingClient.host,
         pendingClient.sockhost] ∈ evs2 :=
  C15_same_reply { exampleEnv with rb_current_time := 2000 } exampleEnv pendingClient
    { challenge := some "QUJD".toList, chal_time := 1000 } "QUJD".toList "QUJD".toList
    "AAAA".toList rfl (by decide) (by decide) rfl rfl rfl (by decide) (by decide) (by decide)

/-- C16: for a line width `W = CHALLENGE_WIDTH` above 1, every iteration of the
fragmenting loop that continues leaves `W - 1` characters fewer; on a challenge
text of length `n` produced by a successful generator call the loop returns
after sending `max 1 (ceil (n / (W - 1)))` `RPL_RSACHALLENGE2` lines (the ceiling
written `(n + (W - 2)) / (W - 1)`), each carrying server name, nick and a chunk,
no chunk empty when `n > 0`, and the handler then sends the end marker, which
occurs exactly once among its events. -/
theorem C16_line_count (env : Env) (c : Client) (lc : LocalClient) (oper_p : oper_conf)
    (text resp : CStr) (gev : List Event)
    (hW : 1 < CHALLENGE_WIDTH env)
    (hlocal : c.localClient = some lc) (hnone : lc.challenge = none)
    (hgen : challenge_generated env oper_p none none =
      { success := true, r_challenge := some text, r_response := some resp, events := gev }) :
    (∀ chal : CStr, CHALLENGE_WIDTH env ≤ chal.length →
      (chal.drop (CHALLENGE_WIDTH env - 1)).length + (CHALLENGE_WIDTH env - 1) = chal.length ∧
      (chal.drop (CHALLENGE_WIDTH env - 1)).length < chal.length) ∧
    ∃ (c1 : Client) (chunks : List CStr) (lines : List Event),
      challenge_lines env c (CHALLENGE_WIDTH env) (text.length + 1) text = some lines ∧
      lines = chunks.map (fun chunk =>
        Event.sendto_one Numeric.RPL_RSACHALLENGE2 [env.me_name, c.name, chunk]) ∧
      lines.length =
        max 1 ((text.length + (CHALLENGE_WIDTH env - 2)) / (CHALLENGE_WIDTH env - 1)) ∧
      (0 < text.length → ∀ chunk,
        Event.sendto_one Numeric.RPL_RSACHALLENGE2 [env.me_name, c.name, chunk] ∈ lines →
        chunk ≠ []) ∧
      m_challenge_generate env c oper_p =
        some (c1,
          gev ++ lines ++
            [Event.sendto_one Numeric.RPL_ENDOFRSACHALLENGE2 [env.me_name, c.name]]) ∧
      (gev ++ lines ++
          [Event.sendto_one Numeric.RPL_ENDOFRSACHALLENGE2 [env.me_name, c.name]]).count
        (Event.sendto_one Numeric.RPL_ENDOFRSACHALLENGE2 [env.me_name, c.name]) = 1 := by
  constructor
  · intro chal hlen
    rw [List.length_drop]
    omega
  · obtain ⟨chunks, hrun, -, -, -, hcount, hne⟩ :=
      challenge_lines_chunks env c (CHALLENGE_WIDTH env) hW (text.length + 1) text (by omega)
    have hlines : chunks.map (challenge_line env c) = chunks.map (fun chunk =>
        Event.sendto_one Numeric.RPL_RSACHALLENGE2 [env.me_name, c.name, chunk]) := rfl
    have hgo : m_challenge_generate env c oper_p =
        some ({ c with
                localClient := some { challenge := some resp, chal_time := env.rb_current_time }
                user := { opername := some oper_p.name } },
          gev ++ chunks.map (challenge_line env c) ++
            [Event.sendto_one Numeric.RPL_ENDOFRSACHALLENGE2 [env.me_name, c.name]]) := by
      simp only [m_challenge_generate, hlocal, hnone, hgen, hrun, if_true]
    refine ⟨_, chunks, _, hrun, hlines, ?_, ?_, hgo, ?_⟩
    · rw [List.length_map]; exact hcount
    · intro hpos chunk hmem
      rw [hlines] at hmem
      obtain ⟨ch, hch, heq⟩ := List.mem_map.mp hmem
      simp only [Event.sendto_one.injEq, List.cons.injEq, and_true, true_and] at heq
      rw [← heq]
      exact hne hpos ch hch
    · obtain ⟨⟨rest, hev, hrest⟩, -⟩ := challenge_generated_cases env oper_p
      rw [hgen] at hev
      simp only at hev
      have hcall : generator_call oper_p ≠
          Event.sendto_one Numeric.RPL_ENDOFRSACHALLENGE2 [env.me_name, c.name] := by
        unfold generator_call
        split <;> simp
      have hgev : gev.count
          (Event.sendto_one Numeric.RPL_ENDOFRSACHALLENGE2 [env.me_name, c.name]) = 0 := by
        rw [hev]
        rcases hrest with h | h <;> subst h <;>
          simp [List.count_cons, hcall]
      have hzero : (chunks.map (challenge_line env c)).count
          (Event.sendto_one Numeric.RPL_ENDOFRSACHALLENGE2 [env.me_name, c.name]) = 0 := by
        apply List.count_eq_zero_of_not_mem
        intro hmem
        obtain ⟨ch, -, hch⟩ := List.mem_map.mp hmem
        simp [challenge_line] at hch
      rw [List.count_append, List.count_append, hgev, hzero]
      simp

set_option maxRecDepth 8000 in
/-- C16 at a concrete input: `exampleClient` and `aliceConf` on `narrowEnv`; the
challenge text `DHH` has 3 characters and a line carries 2, so the lines carry
`DH` and `H`. -/
theorem C16_line_count_witness :
    m_challenge_generate narrowEnv exampleClient aliceConf =
      some (issuedOnce,
        [Event.generate_challenge (some { material := [3] }),
         Event.sendto_one Numeric.RPL_RSACHALLENGE2
           ["irc.example".toList, "al".toList, "DH".toList],
         Event.sendto_one Numeric.RPL_RSACHALLENGE2
           ["irc.example".toList, "al".toList, "H".toList],
         Event.sendto_one Numeric.RPL_ENDOFRSACHALLENGE2
           ["irc.example".toList, "al".toList]]) ∧
    ∃ (c1 : Client) (chunks : List CStr) (lines : List Event),
      challenge_lines narrowEnv exampleClient (CHALLENGE_WIDTH narrowEnv)
          ("DHH".toList.length + 1) "DHH".toList = some lines ∧
      lines = chunks.map (fun chunk =>
        Event.sendto_one Numeric.RPL_RSACHALLENGE2
          [narrowEnv.me_name, exampleClient.name, chunk]) ∧
      lines.length =
        max 1 (("DHH".toList.length + (CHALLENGE_WIDTH narrowEnv - 2)) /
          (CHALLENGE_WIDTH narrowEnv - 1)) ∧
      (0 < "DHH".toList.length → ∀ chunk,
        Event.sendto_one Numeric.RPL_RSACHALLENGE2
          [narrowEnv.me_name, exampleClient.name, chunk] ∈ lines →
        chunk ≠ []) ∧
      m_challenge_generate narrowEnv exampleClient aliceConf =
        some (c1,
          [Event.generate_challenge (some { material := [3] })] ++ lines ++
            [Event.sendto_one Numeric.RPL_ENDOFRSACHALLENGE2
               [narrowEnv.me_name, exampleClient.name]]) ∧
      ([Event.generate_challenge (some { material := [3] })] ++ lines ++
          [Event.sendto_one Numeric.RPL_ENDOFRSACHALLENGE2
             [narrowEnv.me_name, exampleClient.name]]).count
        (Event.sendto_one Numeric.RPL_ENDOFRSACHALLENGE2
          [narrowEnv.me_name, exampleClient.name]) = 1 :=
  ⟨by decide,
   (C16_line_count narrowEnv exampleClient { challenge := none, chal_time := 0 } aliceConf
    "DHH".toList "YM".toList [Event.generate_challenge (some { material := [3] })]
    (by decide) rfl rfl (by decide)).2⟩

/-- C17: an issue command of a local, non-operator principal past the
secure-connection gate runs as if nothing had been pending (the record is
discarded before the lookup); when the lookup returns nothing, or the credential
has no key, or needs a secure connection the client lacks, or the fingerprint
check fails, or the generator call fails, the handler returns with the client as
`cleanup_challenge` left it, without calling `oper_up`; and a later `+old`
command past the gates, whatever `old` is (the formerly expected response
included), does nothing. -/
theorem C17_issue_discards (env env2 : Env) (c : Client) (lc : LocalClient)
    (parv1 old : CStr)
    (hlocal : c.localClient = some lc)
    (hgate : ¬ (env.oper_secure_only = true ∧ c.IsSecureClient = false))
    (hoper : c.IsOper = false)
    (hname : parv1.head? ≠ some '+') :
    m_challenge env c parv1 = m_challenge env (cleanup_challenge c) parv1 ∧
    ((env.find_oper_conf c.username c.orighost c.sockhost (some parv1) = none ∨
      ∃ oper_p, env.find_oper_conf c.username c.orighost c.sockhost (some parv1) = some oper_p ∧
        ((oper_p.rsa_pubkey = none ∧ oper_p.x25519_pubkey = none) ∨
         (oper_p.NeedSSL = true ∧ c.IsSecureClient = false) ∨
         certfp_mismatch c oper_p = true ∨
         (challenge_generated env oper_p none none).success = false)) →
      ∃ evs, m_challenge env c parv1 = some (cleanup_challenge c, evs) ∧
        (cleanup_challenge c).localClient = some { challenge := none, chal_time := 0 } ∧
        (cleanup_challenge c).user.opername = none ∧
        (∀ o, Event.oper_up o ∉ evs) ∧
        (¬ (env2.oper_secure_only = true ∧ c.IsSecureClient = false) →
          m_challenge env2 (cleanup_challenge c) ('+' :: old) =
            some (cleanup_challenge c, []))) := by
  have hclean := cleanup_challenge_local c lc hlocal
  have hcl : (cleanup_challenge c).localClient
      = some { challenge := none, chal_time := 0 } := by rw [hclean]
  have hop : (cleanup_challenge c).user.opername = none := by rw [hclean]
  have hg : ¬ (env.oper_secure_only = true ∧ (cleanup_challenge c).IsSecureClient = false) := by
    rw [hclean]; exact hgate
  have ho : (cleanup_challenge c).IsOper = false := by rw [hclean]; exact hoper
  have hnext : ¬ (env2.oper_secure_only = true ∧ c.IsSecureClient = false) →
      m_challenge env2 (cleanup_challenge c) ('+' :: old) = some (cleanup_challenge c, []) := by
    intro hgate2
    have hg2 : ¬ (env2.oper_secure_only = true ∧
        (cleanup_challenge c).IsSecureClient = false) := by
      rw [hclean]; exact hgate2
    rw [m_challenge_plus env2 (cleanup_challenge c) old hg2 ho]
    exact response_not_expecting env2 _ _ old hcl rfl
  refine ⟨?_, ?_⟩
  · rw [m_challenge_name env c parv1 hgate hoper hname,
      m_challenge_name env (cleanup_challenge c) parv1 hg ho hname, m_challenge_issue_cleanup]
  · intro hfail
    rw [m_challenge_name env c parv1 hgate hoper hname]
    rcases hfail with hfind | ⟨o, hfind, hcond⟩
    · exact ⟨_, issue_no_conf env c parv1 hfind, hcl, hop,
        fun o => by simp [oper_up_not_mem_notice], hnext⟩
    · by_cases hkey : o.rsa_pubkey = none ∧ o.x25519_pubkey = none
      · exact ⟨_, issue_no_key env c parv1 o hfind hkey, hcl, hop, fun o => by simp, hnext⟩
      · by_cases hssl : o.NeedSSL = true ∧ c.IsSecureClient = false
        · exact ⟨_, issue_need_ssl env c parv1 o hfind hkey hssl, hcl, hop,
            fun o => by simp [oper_up_not_mem_notice], hnext⟩
        · by_cases hfp : certfp_mismatch c o = true
          · exact ⟨_, issue_certfp env c parv1 o hfind hkey hssl hfp, hcl, hop,
              fun o => by simp [oper_up_not_mem_notice], hnext⟩
          · have hfp2 : certfp_mismatch c o = false := by simpa using hfp
            have hgen : (challenge_generated env o none none).success = false := by
              rcases hcond with h | h | h | h
              · exact absurd h hkey
              · exact absurd h hssl
              · exact absurd h hfp
              · exact h
            exact ⟨_, issue_generator_failure env c lc parv1 o hlocal hfind hkey hssl hfp2 hgen,
              hcl, hop, fun o2 => by simp [oper_up_not_mem_generated], hnext⟩

/-- C17 at a concrete input: `pendingClient` (expected `QUJD`) asks for the
unknown name `bob` and then sends `+QUJD`. -/
theorem C17_issue_discards_witness :
    ∃ evs, m_challenge exampleEnv pendingClient "bob".toList =
        some (cleanup_challenge pendingClient, evs) ∧
      (cleanup_challenge pendingClient).localClient =
        some { challenge := none, chal_time := 0 } ∧
      (cleanup_challenge pendingClient).user.opername = none ∧
      (∀ o, Event.oper_up o ∉ evs) ∧
      (¬ (exampleEnv.oper_secure_only = true ∧ pendingClient.IsSecureClient = false) →
        m_challenge exampleEnv (cleanup_challenge pendingClient) ('+' :: "QUJD".toList) =
          some (cleanup_challenge pendingClient, [])) :=
  (C17_issue_discards exampleEnv exampleEnv pendingClient
    { challenge := some "QUJD".toList, chal_time := 1000 } "bob".toList "QUJD".toList
    rfl (by decide) rfl (by decide)).2 (Or.inl (by decide))

/-- C18: when `oper_secure_only` is set and the connection is not secure, or the
client is already an operator, any CHALLENGE command returns with the client
unchanged (so the stored response, claimed name and issue time are as before),
and among its events there is no generator call, no `find_oper_conf` and no
`oper_up`. -/
theorem C18_gate_frame (env : Env) (c : Client) (parv1 : CStr)
    (hblocked : (env.oper_secure_only = true ∧ c.IsSecureClient = false) ∨ c.IsOper = true) :
    ∃ evs, m_challenge env c parv1 = some (c, evs) ∧
      (∀ e ∈ evs, e.isGeneratorCall = false) ∧
      (∀ username orighost sockhost name,
        Event.find_oper_conf username orighost sockhost name ∉ evs) ∧
      (∀ o, Event.oper_up o ∉ evs) := by
  by_cases hg : env.oper_secure_only = true ∧ c.IsSecureClient = false
  · refine ⟨_, m_challenge_insecure env c parv1 hg, ?_, ?_, ?_⟩
    · intro e he
      rcases List.mem_cons.mp he with h | h
      · rw [h]; rfl
      · unfold failed_oper_notice at h
        split at h
        · rw [List.mem_singleton.mp h]; rfl
        · simp at h
    · intro username orighost sockhost name
      simp [find_oper_conf_not_mem_notice]
    · intro o
      simp [oper_up_not_mem_notice]
  · have ho : c.IsOper = true := by
      rcases hblocked with h | h
      · exact absurd h hg
      · exact h
    refine ⟨_, m_challenge_already_oper env c parv1 hg ho, ?_, ?_, ?_⟩
    · intro e he
      simp at he
      rcases he with h | h <;> rw [h] <;> rfl
    · intro username orighost sockhost name; simp
    · intro o; simp

/-- C18 at a concrete input: `pendingClient`, on a plain connection, sends the
correct `+QUJD` to `secureOnlyEnv`. -/
theorem C18_gate_frame_witness :
    ∃ evs, m_challenge secureOnlyEnv pendingClient ('+' :: "QUJD".toList) =
        some (pendingClient, evs) ∧
      (∀ e ∈ evs, e.isGeneratorCall = false) ∧
      (∀ username orighost sockhost name,
        Event.find_oper_conf username orighost sockhost name ∉ evs) ∧
      (∀ o, Event.oper_up o ∉ evs) :=
  C18_gate_frame secureOnlyEnv pendingClient ('+' :: "QUJD".toList) (Or.inl (by decide))

set_option maxRecDepth 8000 in
/-- C19, as stated, fails: on `namingEnv` the sequence `alice`, `+YM` from
`exampleClient` (empty record) is an issue followed by a grant; it ends in
`operAlice`, which has no stored expected response while the claimed name
`alice` is present. -/
theorem C19_counterexample :
    (run_commands [(namingEnv, "alice".toList), (namingEnv, '+' :: "YM".toList)]
        exampleClient).map Prod.fst = some operAlice ∧
    operAlice.localClient = some { challenge := none, chal_time := 0 } ∧
    operAlice.user.opername = some "alice".toList := by
  decide

/-- C19 (amended): start from a local client with an empty record (no expected
response, no claimed name, issue time 0) and let `m_challenge` handle any
sequence of commands. (a) If `oper_up` never writes `localClient`, then in the
state reached a stored expected response comes with a claimed name, without a
stored response the issue time is 0, and in whatever the next command does every
`find_oper_conf` call and every `L_FOPER` log line (the ones written before
`cleanup_challenge`) names an identity that is present. (b) If `oper_up` was not
called in the sequence, then whatever `oper_up` is, an expected response is stored
exactly when a claimed name is. -/
theorem C19_record_consistent (cmds : List (Env × CStr)) (c0 c : Client) (lc0 : LocalClient)
    (evs : List Event)
    (hlocal : c0.localClient = some lc0)
    (hresp : lc0.challenge = none) (htime : lc0.chal_time = 0)
    (hname : c0.user.opername = none)
    (hrun : run_commands cmds c0 = some (c, evs)) :
    ((∀ cmd ∈ cmds, ∀ (x : Client) (o : oper_conf),
        (cmd.1.oper_up x o).localClient = x.localClient) →
      (∃ lc, c.localClient = some lc ∧
        (lc.challenge.isSome = true → c.user.opername.isSome = true) ∧
        (lc.challenge = none → lc.chal_time = 0)) ∧
      ∀ (env : Env) (parv1 : CStr) (c1 : Client) (evs1 : List Event),
        m_challenge env c parv1 = some (c1, evs1) →
        (∀ username orighost sockhost name,
          Event.find_oper_conf username orighost sockhost name ∈ evs1 → name.isSome = true) ∧
        (∀ fmt who args,
          Event.ilog LogFile.L_FOPER fmt who args ∈ evs1 → who.isSome = true)) ∧
    ((∀ o, Event.oper_up o ∉ evs) →
      ∃ lc, c.localClient = some lc ∧
        (lc.challenge.isSome = c.user.opername.isSome) ∧
        (lc.challenge = none → lc.chal_time = 0)) := by
  have h0 : RecordConsistent c0 := ⟨lc0, hlocal, by rw [hresp, hname], fun _ => htime⟩
  constructor
  · intro hframe
    have hc : RecordSafe c :=
      run_commands_safe cmds c0 c evs (recordSafe_of_consistent _ h0) hframe hrun
    exact ⟨hc, fun env parv1 c1 evs1 hstep =>
      (m_challenge_step env c c1 parv1 evs1 hc hstep).2.2⟩
  · intro hno
    exact run_commands_consistent cmds c0 c evs h0 hrun hno

set_option maxRecDepth 8000 in
/-- C19 (amended) at concrete inputs, on `namingEnv`: `exampleClient` asks for
`alice` and is granted, the state reached is `operAlice` (part a); after the
issue alone, without a grant, the state reached is `issuedOnce` (part b). -/
theorem C19_record_consistent_witness :
    ((∃ lc, operAlice.localClient = some lc ∧
      (lc.challenge.isSome = true → operAlice.user.opername.isSome = true) ∧
      (lc.challenge = none → lc.chal_time = 0)) ∧
    ∀ (env : Env) (parv1 : CStr) (c1 : Client) (evs1 : List Event),
      m_challenge env operAlice parv1 = some (c1, evs1) →
      (∀ username orighost sockhost name,
        Event.find_oper_conf username orighost sockhost name ∈ evs1 → name.isSome = true) ∧
      (∀ fmt who args,
        Event.ilog LogFile.L_FOPER fmt who args ∈ evs1 → who.isSome = true)) ∧
    (∃ lc, issuedOnce.localClient = some lc ∧
      (lc.challenge.isSome = issuedOnce.user.opername.isSome) ∧
      (lc.challenge = none → lc.chal_time = 0)) :=
  ⟨(C19_record_consistent
    [(namingEnv, "alice".toList), (namingEnv, '+' :: "YM".toList)]
    exampleClient operAlice { challenge := none, chal_time := 0 }
    [Event.find_oper_conf "u".toList "h".toList "10.0.0.1".toList (some "alice".toList),
     Event.generate_challenge (some { material := [3] }),
     Event.sendto_one Numeric.RPL_RSACHALLENGE2
       ["irc.example".toList, "al".toList, "DHH".toList],
     Event.sendto_one Numeric.RPL_ENDOFRSACHALLENGE2 ["irc.example".toList, "al".toList],
     Event.find_oper_conf "u".toList "h".toList "10.0.0.1".toList (some "alice".toList),
     Event.oper_up aliceConf,
     Event.ilog LogFile.L_OPERED "OPER %s by %s!%s@%s (%s)" (some "alice".toList)
       ["al".toList, "u".toList, "h".toList, "10.0.0.1".toList]]
    rfl rfl rfl rfl (by decide)).1
    (fun cmd hmem x o => by
      have hex : ∀ (x : Client) (o : oper_conf),
          (namingEnv.oper_up x o).localClient = x.localClient := fun _ _ => rfl
      simp only [List.mem_cons, List.mem_singleton, List.not_mem_nil, or_false] at hmem
      rcases hmem with h | h <;> rw [h] <;> exact hex x o),
   (C19_record_consistent [(namingEnv, "alice".toList)]
    exampleClient issuedOnce { challenge := none, chal_time := 0 }
    [Event.find_oper_conf "u".toList "h".toList "10.0.0.1".toList (some "alice".toList),
     Event.generate_challenge (some { material := [3] }),
     Event.sendto_one Numeric.RPL_RSACHALLENGE2
       ["irc.example".toList, "al".toList, "DHH".toList],
     Event.sendto_one Numeric.RPL_ENDOFRSACHALLENGE2 ["irc.example".toList, "al".toList]]
    rfl rfl rfl rfl (by decide)).2
    (fun o h => by simp at h)⟩

/-- C20: an issue command of a local, non-operator principal past the
secure-connection gate that passes the three checks returns (line width at
least 2), and among its events exactly one is a generator call,
`generator_call oper_p`, whether the generator succeeds or fails: a call of
`generate_challenge_gen` occurs exactly when the credential has an X25519 key
(with or without an RSA key), then with that key, the token
`solanum-challenge v1-x25519-sha256`, `EVP_PKEY_X25519` and SHA-256; a call of
`generate_challenge` occurs exactly when it has no X25519 key, then with its RSA
key, which is present. -/
theorem C20_scheme_dispatch (env : Env) (c : Client) (lc : LocalClient) (parv1 : CStr)
    (oper_p : oper_conf)
    (hlocal : c.localClient = some lc)
    (hgate : ¬ (env.oper_secure_only = true ∧ c.IsSecureClient = false))
    (hoper : c.IsOper = false)
    (hname : parv1.head? ≠ some '+')
    (hW : 2 ≤ CHALLENGE_WIDTH env)
    (hfind : env.find_oper_conf c.username c.orighost c.sockhost (some parv1) = some oper_p)
    (hkey : ¬ (oper_p.rsa_pubkey = none ∧ oper_p.x25519_pubkey = none))
    (hssl : ¬ (oper_p.NeedSSL = true ∧ c.IsSecureClient = false))
    (hfp : certfp_mismatch c oper_p = false) :
    ∃ c1 evs, m_challenge env c parv1 = some (c1, evs) ∧
      evs.filter Event.isGeneratorCall = [generator_call oper_p] ∧
      (∀ token id md pub, Event.generate_challenge_gen token id md pub ∈ evs ↔
        (oper_p.x25519_pubkey = some pub ∧
          token = "solanum-challenge v1-x25519-sha256".toList ∧
          id = EVP_PKEY_X25519 ∧ md = EVP_MD.sha256)) ∧
      (∀ rsa, Event.generate_challenge rsa ∈ evs ↔
        (oper_p.x25519_pubkey = none ∧ rsa = oper_p.rsa_pubkey ∧ rsa.isSome = true)) := by
  obtain ⟨-, hgev⟩ := challenge_generated_events env oper_p
  have hrun : ∃ c1 evs, m_challenge env c parv1 = some (c1, evs) ∧
      evs.filter Event.isGeneratorCall = [generator_call oper_p] := by
    rw [m_challenge_name env c parv1 hgate hoper hname]
    have hl : (Event.find_oper_conf c.username c.orighost c.sockhost (some parv1)).isGeneratorCall
        = false := rfl
    by_cases hs : (challenge_generated env oper_p none none).success = true
    · obtain ⟨text, resp, hch, hresp⟩ := (challenge_generated_cases env oper_p).2.2 hs
      have hcg : challenge_generated env oper_p none none =
          { success := true, r_challenge := some text, r_response := some resp,
            events := (challenge_generated env oper_p none none).events } := by
        cases hrec : challenge_generated env oper_p none none with
        | mk s1 s2 s3 s4 =>
          rw [hrec] at hs hch hresp
          simp only at hs hch hresp
          rw [hs, hch, hresp]
      obtain ⟨chunks, -, hgo⟩ := m_challenge_issue_success env c lc parv1 oper_p text resp _
        hlocal hW ⟨hfind, hkey, hssl, hfp, hcg⟩
      refine ⟨_, _, hgo, ?_⟩
      have hlines : (chunks.map (challenge_line env c)).filter Event.isGeneratorCall = [] := by
        rw [List.filter_eq_nil_iff]
        intro e he
        obtain ⟨ch, -, hch2⟩ := List.mem_map.mp he
        rw [← hch2]
        simp [challenge_line, Event.isGeneratorCall]
      have hm : (Event.sendto_one Numeric.RPL_ENDOFRSACHALLENGE2
          [env.me_name, c.name]).isGeneratorCall = false := rfl
      simp [List.filter_cons, List.filter_append, hl, hgev, hlines, hm]
    · have hs2 : (challenge_generated env oper_p none none).success = false := by simpa using hs
      refine ⟨_, _, issue_generator_failure env c lc parv1 oper_p hlocal hfind hkey hssl hfp hs2,
        ?_⟩
      have hn : (Event.sendto_one_notice ":Failed to generate challenge.").isGeneratorCall
          = false := rfl
      simp [List.filter_cons, List.filter_append, hl, hgev, hn]
  obtain ⟨c1, evs, hgo, hfilter⟩ := hrun
  have hmem : ∀ e : Event, e.isGeneratorCall = true → (e ∈ evs ↔ e = generator_call oper_p) := by
    intro e he
    constructor
    · intro h
      have : e ∈ evs.filter Event.isGeneratorCall := List.mem_filter.mpr ⟨h, he⟩
      rw [hfilter] at this
      exact List.mem_singleton.mp this
    · intro h
      have : e ∈ evs.filter Event.isGeneratorCall := by rw [hfilter, h]; simp
      exact (List.mem_filter.mp this).1
  refine ⟨c1, evs, hgo, hfilter, ?_, ?_⟩
  · intro token id md pub
    rw [hmem (Event.generate_challenge_gen token id md pub) rfl]
    cases hx : oper_p.x25519_pubkey with
    | none => simp [generator_call, hx]
    | some pub2 =>
      simp only [generator_call, hx, Event.generate_challenge_gen.injEq, Option.some.injEq]
      constructor
      · rintro ⟨h1, h2, h3, h4⟩
        exact ⟨h4.symm, h1, h2, h3⟩
      · rintro ⟨h1, h2, h3, h4⟩
        exact ⟨h2, h3, h4, h1.symm⟩
  · intro rsa
    rw [hmem (Event.generate_challenge rsa) rfl]
    cases hx : oper_p.x25519_pubkey with
    | none =>
      have hr : oper_p.rsa_pubkey ≠ none := fun h => hkey ⟨h, hx⟩
      simp only [generator_call, hx, Event.generate_challenge.injEq, true_and]
      constructor
      · intro h
        refine ⟨h, ?_⟩
        rw [h]
        cases hrsa : oper_p.rsa_pubkey with
        | none => exact absurd hrsa hr
        | some k => rfl
      · intro h; exact h.1
    | some pub2 => simp [generator_call, hx]

set_option maxRecDepth 8000 in
/-- C20 at a concrete input: `exampleClient` asks for `carol`, who has both an
RSA and an X25519 key, on `threeEnv`. -/
theorem C20_scheme_dispatch_witness :
    ∃ c1 evs, m_challenge threeEnv exampleClient "carol".toList = some (c1, evs) ∧
      evs.filter Event.isGeneratorCall = [generator_call carolConf] ∧
      (∀ token id md pub, Event.generate_challenge_gen token id md pub ∈ evs ↔
        (carolConf.x25519_pubkey = some pub ∧
          token = "solanum-challenge v1-x25519-sha256".toList ∧
          id = EVP_PKEY_X25519 ∧ md = EVP_MD.sha256)) ∧
      (∀ rsa, Event.generate_challenge rsa ∈ evs ↔
        (carolConf.x25519_pubkey = none ∧ rsa = carolConf.rsa_pubkey ∧ rsa.isSome = true)) :=
  C20_scheme_dispatch threeEnv exampleClient { challenge := none, chal_time := 0 }
    "carol".toList carolConf rfl (by decide) rfl (by decide) (by decide) (by decide)
    (by decide) (by decide) (by decide)

end Solanum
